import Mathlib

/-!
# NovaFit food pipeline — shallow embedding and verification

This file embeds, in Lean 4, the food identification and portion-resolution
pipeline of the NovaFit repository and proves properties of the embedded code.

Modelling conventions:
* Python floats are modelled as rationals (`ℚ`); `round(x, n)` is modelled by
  `pyRound`, Python's round-half-to-even on exact rationals.
* Database state (the portion cache) is modelled as an explicit list of rows
  threaded through the functions; SQLAlchemy `first()` is the first matching
  row of the list.
* External HTTP providers are modelled as explicit parameters: either as
  functions returning an optional resolution (the seam at which
  `resolve_portion_grams` consumes them, `portion_resolver_service.py`
  lines 150-161), or as decoded response payloads for the provider-internal
  extraction logic.
* The `rapidfuzz` similarity functions are an external library; they appear
  as abstract function parameters.
* Python regular expressions used by the source are embedded as explicit
  character-list scanners with the same matching semantics on the inputs
  considered (word characters are modelled as ASCII alphanumerics or `_`).
-/

/- The Batteries rational operations are marked irreducible, which blocks
the elaborator's evaluation of concrete test cases by `decide`/`rfl`; the
kernel itself reduces them fine. Restore semireducibility so concrete
instances of the embedded code can be checked by evaluation. -/
set_option allowUnsafeReducibility true in
attribute [semireducible] Rat.add Rat.sub Rat.mul Rat.div Rat.inv Rat.neg

deriving instance DecidableEq for Except

/-! ## Rational rounding (Python `round`) -/

/-- Python's `round` on an exact rational: round to the nearest integer,
ties to the nearest even integer (banker's rounding). -/
def roundHalfEven (q : ℚ) : ℤ :=
  let f : ℤ := q.floor
  let r : ℚ := q - mkRat f 1
  if r < mkRat 1 2 then f
  else if mkRat 1 2 < r then f + 1
  else if f % 2 = 0 then f else f + 1

/-- Python's `round(x, d)` on an exact rational. -/
def pyRound (q : ℚ) (d : ℕ) : ℚ :=
  mkRat (roundHalfEven (q * mkRat (10 ^ d) 1)) 1 * mkRat 1 (10 ^ d)

/-- Python `min` on two rationals. -/
def pyMin (a b : ℚ) : ℚ := if b < a then b else a

/-- Python `max` on two rationals. -/
def pyMax (a b : ℚ) : ℚ := if a < b then b else a

/-- `round(x, 2)`. -/
def pyRound2 (q : ℚ) : ℚ := pyRound q 2

/-- `round(x, 4)`. -/
def pyRound4 (q : ℚ) : ℚ := pyRound q 4

/-! ## String helpers shared by the embedded services -/

/-- A word character in the sense of the `\b` / `\w` regex classes
(ASCII approximation of Python's Unicode classes, sufficient for the
inputs considered here). -/
def isWordChar (c : Char) : Bool := c.isAlphanum || c == '_'

/-- A whitespace character in the sense of Python's `str.strip()` and the
regex class `\s`. -/
def isSpaceChar (c : Char) : Bool :=
  c == ' ' || c == '\t' || c == '\n' || c == '\r' || c == '\x0b' || c == '\x0c'

/-- Python `s.strip()`: drop whitespace from both ends. -/
def pyStrip (s : String) : String :=
  ⟨((s.data.dropWhile isSpaceChar).reverse.dropWhile isSpaceChar).reverse⟩

/-- Python `s.lower()` (ASCII). -/
def pyLower (s : String) : String := ⟨s.data.map Char.toLower⟩

/-- Python `s.upper()` (ASCII). -/
def pyUpper (s : String) : String := ⟨s.data.map Char.toUpper⟩

/-- `pre` is an initial segment of `l`. -/
def listStartsWith : List Char → List Char → Bool
  | [], _ => true
  | _ :: _, [] => false
  | p :: ps, c :: cs => p == c && listStartsWith ps cs

/-- `needle` occurs as a contiguous substring of `hay`
(Python's `needle in hay` on strings). -/
def listHasSub (needle hay : List Char) : Bool :=
  hay.tails.any (fun t => listStartsWith needle t)

/-- Python `needle in hay` for strings. -/
def strHasSub (needle hay : String) : Bool := listHasSub needle.data hay.data

/-- Python `s.strip(chars)`: drop the given characters from both ends. -/
def stripChars (s : String) (chars : List Char) : String :=
  ⟨((s.data.dropWhile (chars.contains ·)).reverse.dropWhile (chars.contains ·)).reverse⟩

/-- The punctuation set `" ,.;:-"` used by the text segmentation helpers. -/
def segmentStripChars : List Char := [' ', ',', '.', ';', ':', '-']

/-- Insert `x` into `l` before the first element `y` with `le x y`.
Building the sort with `List.foldr` makes the result stable. -/
def insertLe {α : Type} (le : α → α → Bool) (x : α) : List α → List α
  | [] => [x]
  | y :: ys => if le x y then x :: y :: ys else y :: insertLe le x ys

/-- Stable sort placing `a` before `b` whenever `le a b`; ties keep the
input order. This models Python's stable `list.sort` / `sorted`. -/
def pySorted {α : Type} (le : α → α → Bool) (l : List α) : List α :=
  l.foldr (insertLe le) []

/-- First-match association-list lookup, the model of Python `dict.get`
on the source's literal tables (insertion-ordered). -/
def tblGet (tbl : List (String × ℚ)) (key : String) : Option ℚ :=
  (tbl.find? (fun p => p.1 == key)).map (·.2)

/-- `dict.get(key, default)` on a rational-valued table. -/
def tblGetD (tbl : List (String × ℚ)) (key : String) (d : ℚ) : ℚ :=
  (tblGet tbl key).getD d

/-! ## Portion resolver (`app/services/portion_resolver_service.py`) -/

/-- `PortionResolution` dataclass. -/
structure PortionResolution where
  grams_per_unit : ℚ
  source : String
  confidence_score : ℚ
  category : Option String := none
deriving Repr, DecidableEq

/-- One row of the `food_portion_cache` table
(`app/models/food_portion_cache.py`). Timestamps are omitted: the list
order of the cache models the `updated_at`/`created_at` ordering used by
`first()`. -/
structure CacheRow where
  normalized_name : String
  unit_normalized : String
  grams_per_unit : ℚ
  source : String
  confidence_score : ℚ
  category : Option String
deriving Repr, DecidableEq

/-- `PortionResolverService.UNIT_ALIASES`. -/
def UNIT_ALIASES : List (String × String) :=
  [("cup", "cup"), ("cups", "cup"), ("taza", "cup"), ("tazas", "cup"),
   ("tbsp", "tablespoon"), ("tablespoon", "tablespoon"),
   ("tablespoons", "tablespoon"), ("cucharada", "tablespoon"),
   ("cucharadas", "tablespoon"),
   ("tsp", "teaspoon"), ("teaspoon", "teaspoon"), ("teaspoons", "teaspoon"),
   ("cucharadita", "teaspoon"), ("cucharaditas", "teaspoon"),
   ("serving", "serving"), ("portion", "serving"), ("porcion", "serving"),
   ("porción", "serving"),
   ("unit", "piece"), ("unidad", "piece"), ("piece", "piece"),
   ("pieza", "piece"), ("ml", "ml")]

/-- `PortionResolverService.UNIT_TOKEN_MATCH`. -/
def UNIT_TOKEN_MATCH : List (String × List String) :=
  [("cup", ["cup", "cups", "taza", "tazas"]),
   ("tablespoon", ["tablespoon", "tablespoons", "tbsp", "cucharada", "cucharadas"]),
   ("teaspoon", ["teaspoon", "teaspoons", "tsp", "cucharadita", "cucharaditas"]),
   ("piece", ["piece", "pieces", "unidad", "unidades", "pieza", "piezas"]),
   ("serving", ["serving", "portion", "porcion", "porción"])]

/-- `PortionResolverService.CATEGORY_KEYWORDS` (insertion-ordered). -/
def CATEGORY_KEYWORDS : List (String × List String) :=
  [("beverage", ["coffee", "cafe", "café", "tea", "té", "water", "juice", "jugo", "mate"]),
   ("dairy", ["milk", "leche", "yogurt", "yoghurt", "queso", "cheese"]),
   ("oil_fat", ["oil", "aceite", "butter", "manteca", "margarine", "ghee"]),
   ("grain_cooked", ["rice", "arroz", "pasta", "quinoa", "oat", "avena", "bread", "pan"]),
   ("protein_animal", ["chicken", "pollo", "beef", "carne", "fish", "pescado", "egg", "huevo"]),
   ("fruit", ["banana", "apple", "manzana", "orange", "naranja", "fruta"]),
   ("vegetable", ["salad", "ensalada", "tomato", "tomate", "broccoli", "brócoli", "zanahoria"])]

/-- `PortionResolverService.CATEGORY_FALLBACK_GRAMS`. -/
def CATEGORY_FALLBACK_GRAMS : List (String × List (String × ℚ)) :=
  [("beverage", [("serving", 240), ("cup", 240), ("tablespoon", 15), ("teaspoon", 5), ("piece", 240), ("ml", 1)]),
   ("dairy", [("serving", 200), ("cup", 244), ("tablespoon", 15), ("teaspoon", 5), ("piece", 30), ("ml", mkRat 103 100)]),
   ("oil_fat", [("serving", 14), ("cup", 218), ("tablespoon", 14), ("teaspoon", mkRat 9 2), ("piece", 14), ("ml", mkRat 92 100)]),
   ("grain_cooked", [("serving", 150), ("cup", 158), ("tablespoon", 10), ("teaspoon", mkRat 33 10), ("piece", 40), ("ml", mkRat 8 10)]),
   ("protein_animal", [("serving", 120), ("cup", 140), ("tablespoon", 15), ("teaspoon", 5), ("piece", 50), ("ml", 1)]),
   ("fruit", [("serving", 140), ("cup", 150), ("tablespoon", 10), ("teaspoon", mkRat 7 2), ("piece", 120), ("ml", mkRat 95 100)]),
   ("vegetable", [("serving", 100), ("cup", 130), ("tablespoon", 8), ("teaspoon", 3), ("piece", 80), ("ml", mkRat 9 10)]),
   ("generic", [("serving", 100), ("cup", 240), ("tablespoon", 15), ("teaspoon", 5), ("piece", 50), ("ml", 1)])]

/-- The `"generic"` row of `CATEGORY_FALLBACK_GRAMS`. -/
def genericFallbackTable : List (String × ℚ) :=
  [("serving", 100), ("cup", 240), ("tablespoon", 15), ("teaspoon", 5), ("piece", 50), ("ml", 1)]

/-- `PortionResolverService.normalize_unit`. -/
def normalizeUnit (unit : String) : String :=
  let u := pyLower (pyStrip unit)
  (((UNIT_ALIASES.find? (fun p => p.1 == u)).map (·.2)).getD u)

/-- `PortionResolverService._detect_category`: first category whose keyword
list has a member occurring in the normalized name. -/
def detectCategory (normalized_name : String) : String :=
  match CATEGORY_KEYWORDS.find? (fun ck => ck.2.any (fun kw => strHasSub kw normalized_name)) with
  | some ck => ck.1
  | none => "generic"

/-- `PortionResolverService._category_fallback_grams`. -/
def categoryFallbackGrams (category : String) (normalized_unit : String) : ℚ :=
  let category_table :=
    (((CATEGORY_FALLBACK_GRAMS.find? (fun p => p.1 == category)).map (·.2)).getD genericFallbackTable)
  tblGetD category_table normalized_unit (tblGetD genericFallbackTable normalized_unit 100)

/-- `PortionResolverService._matches_unit_token`: one of the unit's token
variants occurs in the free text. -/
def matchesUnitToken (text : String) (normalized_unit : String) : Bool :=
  let tokens := (((UNIT_TOKEN_MATCH.find? (fun p => p.1 == normalized_unit)).map (·.2)).getD [normalized_unit])
  tokens.any (fun token => strHasSub token text)

/-- Key match used by both cache queries in the resolver. -/
def cacheKeyMatch (normalized_name normalized_unit : String) (r : CacheRow) : Bool :=
  r.normalized_name == normalized_name && r.unit_normalized == normalized_unit

/-- `PortionResolverService._get_cached_resolution`: first row for the key
(the list order models the `updated_at desc nullslast, created_at desc`
ordering used by the query). -/
def getCachedResolution (db : List CacheRow) (normalized_name normalized_unit : String) :
    Option PortionResolution :=
  (db.find? (cacheKeyMatch normalized_name normalized_unit)).map
    (fun r => ⟨r.grams_per_unit, r.source, r.confidence_score, r.category⟩)

/-- Replace the first row matched by `p` with `f` applied to it. -/
def replaceFirst (p : CacheRow → Bool) (f : CacheRow → CacheRow) : List CacheRow → List CacheRow
  | [] => []
  | r :: rs => if p r then f r :: rs else r :: replaceFirst p f rs

/-- `PortionResolverService._upsert_cache`: insert a new row when the key is
absent, otherwise update the existing row's value, source, confidence and
category in place (the key columns are not touched). -/
def upsertCache (db : List CacheRow) (normalized_name normalized_unit : String)
    (resolution : PortionResolution) : List CacheRow :=
  match db.find? (cacheKeyMatch normalized_name normalized_unit) with
  | none =>
      db ++ [⟨normalized_name, normalized_unit, resolution.grams_per_unit,
             resolution.source, resolution.confidence_score, resolution.category⟩]
  | some _ =>
      replaceFirst (cacheKeyMatch normalized_name normalized_unit)
        (fun r => { r with
                    grams_per_unit := resolution.grams_per_unit,
                    source := resolution.source,
                    confidence_score := resolution.confidence_score,
                    category := resolution.category }) db

/-- An external provider resolver as consumed by the resolution loop
(`resolve_portion_grams` lines 150-161): a function from the normalized
name and unit to an optional resolution. -/
def ProviderFn : Type := String → String → Option PortionResolution

/-- The provider loop of `resolve_portion_grams`: first success wins.
Also counts how many providers were invoked (each invocation is an
external lookup). -/
def runProviders : List ProviderFn → String → String → Option PortionResolution × ℕ
  | [], _, _ => (none, 0)
  | p :: ps, n, u =>
    match p n u with
    | some r => (some r, 1)
    | none =>
        let rest := runProviders ps n u
        (rest.1, rest.2 + 1)

/-- Result of one `resolve_portion_grams` call: the returned grams, the
cache state afterwards, and the number of external provider lookups made. -/
structure ResolveOut where
  grams : ℚ
  cache : List CacheRow
  providerCalls : ℕ
deriving Repr, DecidableEq

/-- `PortionResolverService.USDA_CONFIDENCE`. -/
def USDA_CONFIDENCE : ℚ := mkRat 90 100

/-- `PortionResolverService.FATSECRET_CONFIDENCE`. -/
def FATSECRET_CONFIDENCE : ℚ := mkRat 80 100

/-- `PortionResolverService.OPENFOODFACTS_CONFIDENCE`. -/
def OPENFOODFACTS_CONFIDENCE : ℚ := mkRat 70 100

/-- `PortionResolverService.FALLBACK_CONFIDENCE`. -/
def FALLBACK_CONFIDENCE : ℚ := mkRat 45 100

/-- Steps 2-5 of the resolution chain of `resolve_portion_grams`: the
provider loop followed by the category fallback, each writing the cache
before returning. -/
def resolveViaProviders (providers : List ProviderFn) (db : List CacheRow)
    (normalized_name normalized_unit : String) : ResolveOut :=
  match runProviders providers normalized_name normalized_unit with
  | (some resolution, calls) =>
      ⟨resolution.grams_per_unit,
       upsertCache db normalized_name normalized_unit resolution, calls⟩
  | (none, calls) =>
      let category := detectCategory normalized_name
      let fallback_value := categoryFallbackGrams category normalized_unit
      let fallback_resolution : PortionResolution :=
        ⟨fallback_value, "category_fallback", FALLBACK_CONFIDENCE, some category⟩
      ⟨fallback_value,
       upsertCache db normalized_name normalized_unit fallback_resolution, calls⟩

/-- `PortionResolverService.resolve_portion_grams`, with the external
provider chain passed in as `providers` and the cache as an explicit list. -/
def resolvePortionGrams (providers : List ProviderFn) (db : List CacheRow)
    (food_name unit : String) (preferred_serving_grams : Option ℚ) : ResolveOut :=
  let normalized_name := pyLower (pyStrip food_name)
  let normalized_unit := normalizeUnit unit
  if normalized_name = "" then
    ⟨tblGetD genericFallbackTable normalized_unit 100, db, 0⟩
  else
    match getCachedResolution db normalized_name normalized_unit with
    | some cached => ⟨cached.grams_per_unit, db, 0⟩
    | none =>
      match preferred_serving_grams with
      | some p =>
        if normalized_unit = "serving" ∧ p ≠ 0 ∧ 0 < p then
          let resolution : PortionResolution :=
            ⟨p, "usda", USDA_CONFIDENCE, some (detectCategory normalized_name)⟩
          ⟨resolution.grams_per_unit,
           upsertCache db normalized_name normalized_unit resolution, 0⟩
        else
          resolveViaProviders providers db normalized_name normalized_unit
      | none => resolveViaProviders providers db normalized_name normalized_unit

/-! ### OpenFoodFacts portion extraction
(`PortionResolverService._resolve_from_openfoodfacts` and helpers, on
decoded response payloads) -/

/-- Digit run to a natural number. -/
def digitsToNat (cs : List Char) : ℕ :=
  cs.foldl (fun acc c => acc * 10 + (c.toNat - '0'.toNat)) 0

/-- Python `float` on a decimal literal `digits(.digits)?`. -/
def parseDecimalChars (cs : List Char) : ℚ :=
  let ip := cs.takeWhile (fun c => c ≠ '.')
  let rest := cs.dropWhile (fun c => c ≠ '.')
  match rest with
  | _ :: frac => (digitsToNat ip : ℚ) + (digitsToNat frac : ℚ) * mkRat 1 (10 ^ frac.length)
  | [] => (digitsToNat ip : ℚ)

/-- Attempt to match the regex `([0-9]+(?:[\.,][0-9]+)?)\s*g\b`
(case-insensitive) at the head of `cs`; on success return the captured
number characters. -/
def tryGramsAt (cs : List Char) : Option (List Char) :=
  let d1 := cs.takeWhile Char.isDigit
  let r1 := cs.dropWhile Char.isDigit
  if d1.isEmpty then none
  else
    let numRest : List Char × List Char :=
      match r1 with
      | c :: rest =>
        if c == '.' || c == ',' then
          let d2 := rest.takeWhile Char.isDigit
          let r3 := rest.dropWhile Char.isDigit
          if d2.isEmpty then (d1, r1) else (d1 ++ c :: d2, r3)
        else (d1, r1)
      | [] => (d1, r1)
    let afterSpaces := numRest.2.dropWhile isSpaceChar
    match afterSpaces with
    | g :: rest2 =>
      if g == 'g' || g == 'G' then
        match rest2 with
        | [] => some numRest.1
        | n :: _ => if isWordChar n then none else some numRest.1
      else none
    | [] => none

/-- Leftmost match of the gram pattern (the semantics of `re.search`). -/
def scanGrams : List Char → Option (List Char)
  | [] => none
  | c :: rest =>
    match tryGramsAt (c :: rest) with
    | some num => some num
    | none => scanGrams rest

/-- `PortionResolverService._extract_grams_from_text`: find an embedded
gram value such as `"30 g"` in free text; `,` is read as a decimal point. -/
def extractGramsFromText (text : String) : Option ℚ :=
  if text = "" then none
  else
    (scanGrams text.data).map
      (fun num => parseDecimalChars (num.map (fun c => if c == ',' then '.' else c)))

/-- One decoded OpenFoodFacts product, restricted to the fields read by
`_extract_off_resolution`; `serving_quantity` carries the result of the
`_to_float` coercion. -/
structure OffProduct where
  product_name_en : String
  product_name : String
  serving_quantity : Option ℚ
  serving_quantity_unit : String
  serving_size : String
deriving Repr, DecidableEq

/-- `PortionResolverService._extract_off_resolution`. -/
def extractOffResolution (product : OffProduct)
    (normalized_name normalized_unit : String) : Option PortionResolution :=
  let serving_unit := pyLower (pyStrip product.serving_quantity_unit)
  let serving_size_text := pyLower (pyStrip product.serving_size)
  let grams_from_text :=
    match extractGramsFromText serving_size_text, product.serving_quantity with
    | some g, _ => some g
    | none, some q =>
      if q ≠ 0 ∧ serving_unit ∈ ["g", "gram", "grams"] then some q
      else if q ≠ 0 ∧ serving_unit ∈ ["ml", "milliliter", "milliliters"] then some q
      else none
    | none, none => none
  match grams_from_text with
  | none => none
  | some g =>
    if normalized_unit = "serving" then
      some ⟨g, "openfoodfacts", OPENFOODFACTS_CONFIDENCE, some (detectCategory normalized_name)⟩
    else if matchesUnitToken serving_size_text normalized_unit then
      some ⟨g, "openfoodfacts", OPENFOODFACTS_CONFIDENCE, some (detectCategory normalized_name)⟩
    else none

/-- `PortionResolverService._resolve_from_openfoodfacts` on a decoded
search payload: rank products by fuzzy similarity of the display name
(the `rapidfuzz` scorer is the abstract parameter `fuzzPTSR`), keep the
best three, return the first successful extraction. -/
def resolveFromOpenFoodFactsDecoded (fuzzPTSR : String → String → ℚ)
    (products : List OffProduct) (normalized_name normalized_unit : String) :
    Option PortionResolution :=
  if products.isEmpty then none
  else
    let displayName := fun (p : OffProduct) =>
      if p.product_name_en ≠ "" then p.product_name_en
      else if p.product_name ≠ "" then p.product_name
      else ""
    let ranked := (pySorted (fun a b =>
      decide (fuzzPTSR normalized_name (displayName b) ≤ fuzzPTSR normalized_name (displayName a))) products).take 3
    ranked.findSome? (fun p => extractOffResolution p normalized_name normalized_unit)

/-- A provider resolver with missing API credentials: `_resolve_from_usda`
(line 238) and `_resolve_from_fatsecret` (line 336) return `None` outright
when their keys are not configured. -/
def providerWithoutCredentials : ProviderFn := fun _ _ => none

/-! ## Aggregator & ranker (`app/services/food_aggregator_service.py`,
`app/services/connectors/base_connector.py`) -/

/-- The `FoodNormalized` payload (`app/schemas/food_normalized.py`). -/
structure FoodNormalized where
  name : String
  brand : Option String
  calories_per_100g : ℚ
  protein_per_100g : ℚ
  fat_per_100g : ℚ
  carbs_per_100g : ℚ
  fiber_per_100g : Option ℚ
  source : String
  confidence_score : ℚ
deriving Repr, DecidableEq

/-- `clamp_confidence` (`base_connector.py`): round to 4 decimal places,
then clamp into `[0, 1]`. -/
def clampConfidence (value : ℚ) : ℚ := pyMax 0 (pyMin 1 (pyRound value 4))

/-- `BARCODE_PATTERN.fullmatch(query)`: the pattern `^\d{9,}$`. -/
def isBarcodeText (q : String) : Bool :=
  decide (9 ≤ q.data.length) && q.data.all Char.isDigit

/-- `KNOWN_BRAND_TOKENS`. -/
def KNOWN_BRAND_TOKENS : List String :=
  ["coca", "coca-cola", "pepsi", "nestle", "danone", "kellogg", "bimbo",
   "lays", "lay's", "gatorade", "monster", "redbull"]

/-- A character of the token class `[a-z0-9'\-]` used by `_query_has_brand`. -/
def brandTokenChar (c : Char) : Bool :=
  (decide ('a' ≤ c) && decide (c ≤ 'z')) || c.isDigit || c == '\'' || c == '-'

/-- Accumulator loop for `tokenRuns`; `acc` holds the current run reversed. -/
def tokenRunsAux (acc : List Char) : List Char → List (List Char)
  | [] => if acc.isEmpty then [] else [acc.reverse]
  | c :: cs =>
    if brandTokenChar c then tokenRunsAux (c :: acc) cs
    else if acc.isEmpty then tokenRunsAux [] cs
    else acc.reverse :: tokenRunsAux [] cs

/-- `re.findall(r"[a-z0-9'\-]+", s)`: maximal runs of token characters. -/
def tokenRuns (cs : List Char) : List (List Char) := tokenRunsAux [] cs

/-- `_query_has_brand`: barcode-shaped queries, known brand tokens, or
alphanumeric product references count as branded. -/
def queryHasBrand (query : String) : Bool :=
  let lowered := pyStrip (pyLower query)
  if isBarcodeText lowered then true
  else
    let tokens := tokenRuns lowered.data
    if tokens.any (fun t => KNOWN_BRAND_TOKENS.any (fun k => k.data == t)) then true
    else tokens.any (fun t => t.any Char.isDigit && t.any Char.isAlpha)

/-- The `(name + brand)` comparison key of `_is_duplicate_food` /
`_is_query_similar_to_item`. -/
def foodKey (x : FoodNormalized) : String :=
  pyLower (pyStrip (x.name ++ " " ++ (x.brand.getD "")))

/-- `_is_query_similar_to_item`: fuzzy `token_set_ratio` of the query
against the item key is at least 70. `tsr` abstracts
`rapidfuzz.fuzz.token_set_ratio`. -/
def isQuerySimilarToItem (tsr : String → String → ℚ) (query : String)
    (item : FoodNormalized) : Bool :=
  decide (70 ≤ tsr (pyStrip (pyLower query)) (foodKey item))

/-- `_is_duplicate_food`: fuzzy similarity of the two keys is at least 92. -/
def isDuplicateFood (tsr : String → String → ℚ) (left right : FoodNormalized) : Bool :=
  decide (92 ≤ tsr (foodKey left) (foodKey right))

/-- The rescoring of one item inside `_apply_ranking_rules` (lines 124-153):
barcode boost/penalty, provider boost/penalty, local-history bonus,
missing-fiber penalty, all-zero-macros penalty, then one clamp. -/
def rescoreItem (tsr : String → String → ℚ) (query : String)
    (is_barcode_query has_brand_in_query exists_in_local_db : Bool)
    (item : FoodNormalized) : FoodNormalized :=
  let s1 :=
    if is_barcode_query then
      if item.source == "openfoodfacts" then item.confidence_score + mkRat 10 100
      else item.confidence_score - mkRat 4 100
    else item.confidence_score
  let s2 :=
    if !has_brand_in_query then
      if item.source == "usda" then s1 + mkRat 8 100
      else if item.source == "openfoodfacts" then s1 - mkRat 3 100
      else s1
    else s1
  let s3 := if exists_in_local_db && isQuerySimilarToItem tsr query item then s2 + mkRat 5 100 else s2
  let s4 := if item.fiber_per_100g.isNone then s3 - mkRat 5 100 else s3
  let s5 :=
    if item.protein_per_100g == 0 && item.fat_per_100g == 0 && item.carbs_per_100g == 0 then
      s4 - mkRat 5 100
    else s4
  { item with confidence_score := clampConfidence s5 }

/-- Descending-confidence comparison used by the aggregator's sorts
(`sorted(..., key=confidence, reverse=True)`). -/
def confDesc (a b : FoodNormalized) : Bool :=
  decide (b.confidence_score ≤ a.confidence_score)

/-- The greedy keep-loop of `_remove_duplicates`: keep a candidate unless
it duplicates an already-kept item. -/
def dedupKeep (tsr : String → String → ℚ) (unique : List FoodNormalized) :
    List FoodNormalized → List FoodNormalized
  | [] => unique
  | candidate :: rest =>
    if unique.any (fun existing => isDuplicateFood tsr candidate existing) then
      dedupKeep tsr unique rest
    else
      dedupKeep tsr (unique ++ [candidate]) rest

/-- `FoodAggregatorService._remove_duplicates`. -/
def removeDuplicates (tsr : String → String → ℚ) (items : List FoodNormalized) :
    List FoodNormalized :=
  dedupKeep tsr [] (pySorted confDesc items)

/-- The barcode tie-break key `(x.source != "openfoodfacts",
-x.confidence_score)` as a boolean order. -/
def barcodeKeyLe (a b : FoodNormalized) : Bool :=
  let ka : ℕ := if a.source == "openfoodfacts" then 0 else 1
  let kb : ℕ := if b.source == "openfoodfacts" then 0 else 1
  if ka = kb then decide (b.confidence_score ≤ a.confidence_score)
  else decide (ka < kb)

/-- One connector's result set, tagged with its `source_name`. -/
structure ConnectorRun where
  source : String
  items : List FoodNormalized
deriving Repr, DecidableEq

/-- `results_by_source.get(source)`: a dict comprehension keyed by
`run.source`, so a duplicated source keeps the last run. -/
def resultsBySource (runs : List ConnectorRun) (src : String) :
    Option (List FoodNormalized) :=
  (runs.reverse.find? (fun r => r.source == src)).map (·.items)

/-- `MAX_RESULTS`. -/
def MAX_RESULTS : ℕ := 5

/-- `FoodAggregatorService._apply_ranking_rules`. `tsr` abstracts the
`rapidfuzz` scorer and `exists_in_local_db` the `_exists_in_local_db`
database probe. -/
def applyRankingRules (tsr : String → String → ℚ) (query : String)
    (exists_in_local_db : Bool) (items : List FoodNormalized)
    (runs : List ConnectorRun) : List FoodNormalized :=
  if items.isEmpty then []
  else
    let is_barcode_query := isBarcodeText query
    let has_brand_in_query := queryHasBrand query
    let rescored := items.map
      (rescoreItem tsr query is_barcode_query has_brand_in_query exists_in_local_db)
    let deduplicated := removeDuplicates tsr rescored
    let byConfidence := pySorted confDesc deduplicated
    let final :=
      if is_barcode_query &&
          (match resultsBySource runs "openfoodfacts" with
           | some l => !l.isEmpty
           | none => false) then
        pySorted barcodeKeyLe byConfidence
      else byConfidence
    final.take MAX_RESULTS

/-- `FoodAggregatorService.search_food`: gather all connector runs (their
interleaving does not affect the value), combine in connector order, rank. -/
def searchFood (tsr : String → String → ℚ) (query : String)
    (exists_in_local_db : Bool) (runs : List ConnectorRun) : List FoodNormalized :=
  let cleaned_query := pyStrip query
  if cleaned_query = "" then []
  else
    let combined := runs.foldl (fun acc r => acc ++ r.items) []
    applyRankingRules tsr cleaned_query exists_in_local_db combined runs

/-! ## Food text parsing (`app/services/food_parser.py`) -/

/-- `ParsedFoodPayload` (`app/schemas/food.py`): one structured item from
the text-to-items extractor. -/
structure ParsedFoodPayload where
  name : String
  quantity : ℚ
  unit : String
deriving Repr, DecidableEq

/-- `UNIT_TO_GRAMS`: exact weight conversions. -/
def UNIT_TO_GRAMS : List (String × ℚ) :=
  [("g", 1), ("gram", 1), ("grams", 1), ("gramo", 1), ("gramos", 1),
   ("kg", 1000), ("kilogram", 1000), ("kilograms", 1000),
   ("kilogramo", 1000), ("kilogramos", 1000),
   ("oz", mkRat 283495 10000), ("onza", mkRat 283495 10000), ("onzas", mkRat 283495 10000),
   ("lb", mkRat 453592 1000), ("lbs", mkRat 453592 1000),
   ("libra", mkRat 453592 1000), ("libras", mkRat 453592 1000)]

/-- `PORTION_UNIT_TO_GRAMS_GENERIC`. -/
def PORTION_UNIT_TO_GRAMS_GENERIC : List (String × ℚ) :=
  [("ml", 1), ("cup", 240), ("cups", 240), ("taza", 240), ("tazas", 240),
   ("tablespoon", 15), ("tablespoons", 15), ("tbsp", 15),
   ("cucharada", 15), ("cucharadas", 15),
   ("teaspoon", 5), ("teaspoons", 5), ("tsp", 5),
   ("cucharadita", 5), ("cucharaditas", 5)]

/-- `FOOD_SPECIFIC_PORTION_GRAMS`. -/
def FOOD_SPECIFIC_PORTION_GRAMS : List (String × List (String × ℚ)) :=
  [("coffee", [("cup", 240), ("tablespoon", 15), ("teaspoon", 5), ("ml", 1)]),
   ("cafe", [("cup", 240), ("tablespoon", 15), ("teaspoon", 5), ("ml", 1)]),
   ("milk", [("cup", 244), ("tablespoon", mkRat 153 10), ("teaspoon", mkRat 51 10), ("ml", mkRat 103 100)]),
   ("leche", [("cup", 244), ("tablespoon", mkRat 153 10), ("teaspoon", mkRat 51 10), ("ml", mkRat 103 100)])]

/-- `SERVING_UNITS`. -/
def SERVING_UNITS : List String := ["serving", "portion", "porción", "porcion"]

/-- `CONNECTOR_TOKENS`. -/
def CONNECTOR_TOKENS : List String := ["with", "con", "and", "y", "e"]

/-- The food parser's own `_normalize_unit` (its alias table is smaller
than the portion resolver's). -/
def fpNormalizeUnit (unit : String) : String :=
  let normalized := pyLower (pyStrip unit)
  let aliases : List (String × String) :=
    [("cup", "cup"), ("cups", "cup"), ("taza", "cup"), ("tazas", "cup"),
     ("tbsp", "tablespoon"), ("tablespoon", "tablespoon"),
     ("tablespoons", "tablespoon"), ("cucharada", "tablespoon"),
     ("cucharadas", "tablespoon"),
     ("tsp", "teaspoon"), ("teaspoon", "teaspoon"), ("teaspoons", "teaspoon"),
     ("cucharadita", "teaspoon"), ("cucharaditas", "teaspoon"),
     ("ml", "ml")]
  (((aliases.find? (fun p => p.1 == normalized)).map (·.2)).getD normalized)

/-- `_food_specific_multiplier`: first keyword contained in the lowered
name whose mapping knows the unit. -/
def foodSpecificMultiplier (food_name : String) (normalized_unit : String) : Option ℚ :=
  let lowered_name := pyStrip (pyLower food_name)
  FOOD_SPECIFIC_PORTION_GRAMS.findSome? (fun km =>
    if strHasSub km.1 lowered_name then tblGet km.2 normalized_unit else none)

/-- `convert_to_grams`: weight units by fixed multiplier, then food-aware
portion defaults, then generic portion defaults, each rounded to two
decimal places; otherwise the typed failure `unsupported_unit`. -/
def convertToGrams (quantity : ℚ) (unit : String) (food_name : Option String) :
    Except String ℚ :=
  let normalized_unit := fpNormalizeUnit unit
  match tblGet UNIT_TO_GRAMS normalized_unit with
  | some weight_multiplier => .ok (pyRound2 (quantity * weight_multiplier))
  | none =>
    let specific :=
      if (food_name.getD "") ≠ "" then
        foodSpecificMultiplier (food_name.getD "") normalized_unit
      else none
    match specific with
    | some specific_multiplier => .ok (pyRound2 (quantity * specific_multiplier))
    | none =>
      match tblGet PORTION_UNIT_TO_GRAMS_GENERIC normalized_unit with
      | some generic_multiplier => .ok (pyRound2 (quantity * generic_multiplier))
      | none => .error "unsupported_unit"

/-- `is_serving_unit`. -/
def isServingUnit (unit : String) : Bool :=
  SERVING_UNITS.contains (pyLower (pyStrip unit))

/-! ### The composite regexes of the parser as character scanners -/

/-- Case-insensitively drop `w` from the head of `cs`; `w` is lowercase. -/
def dropWordCI : List Char → List Char → Option (List Char)
  | [], cs => some cs
  | _, [] => none
  | p :: ps, c :: cs => if p == c.toLower then dropWordCI ps cs else none

/-- Word-boundary check against the previous character. -/
def boundaryBefore (prev : Option Char) : Bool :=
  match prev with
  | none => true
  | some p => !isWordChar p

/-- Boundary-checked, case-insensitive match of one of the words `ws`
(given lowercase) at the current position.  Returns the word's last
character and the remaining input on success. -/
def matchAnyWordAt (ws : List (List Char)) (prev : Option Char) (cs : List Char) :
    Option (Char × List Char) :=
  if boundaryBefore prev then
    ws.findSome? (fun w =>
      match dropWordCI w cs with
      | some rest =>
        match w.getLast? with
        | none => none
        | some lc =>
          match rest with
          | [] => some (lc, [])
          | n :: _ => if isWordChar n then none else some (lc, rest)
      | none => none)
  else none

/-- `re.search` existence of one of the words `ws` with `\b` boundaries. -/
def scanForWords (ws : List (List Char)) : Option Char → List Char → Bool
  | _, [] => false
  | prev, c :: rest =>
    (matchAnyWordAt ws prev (c :: rest)).isSome || scanForWords ws (some c) rest

/-- The alternatives `(cafe|café|coffee)` of `COFFEE_WITH_MILK_PATTERN`. -/
def coffeeWords : List (List Char) := ["cafe".data, "café".data, "coffee".data]

/-- The alternatives `(leche|milk)` of `COFFEE_WITH_MILK_PATTERN`. -/
def milkWords : List (List Char) := ["leche".data, "milk".data]

/-- Scanner for `COFFEE_WITH_MILK_PATTERN`:
`\b(cafe|café|coffee)\b.*\b(leche|milk)\b`, case-insensitive. -/
def scanCoffeeThenMilk : Option Char → List Char → Bool
  | _, [] => false
  | prev, c :: rest =>
    (match matchAnyWordAt coffeeWords prev (c :: rest) with
     | some (lastChar, after) => scanForWords milkWords (some lastChar) after
     | none => false)
    || scanCoffeeThenMilk (some c) rest

/-- `COFFEE_WITH_MILK_PATTERN.search(s)` as a boolean. -/
def coffeeMilkSearch (s : String) : Bool := scanCoffeeThenMilk none s.data

/-- The connector words of `COMPOSITE_CONNECTOR_PATTERN`
(`\b(with|con|and|y|e)\b`). -/
def connectorWords : List (List Char) :=
  ["with".data, "con".data, "and".data, "y".data, "e".data]

/-- Fuel-driven splitter for `COMPOSITE_CONNECTOR_PATTERN`
(`\b(with|con|and|y|e)\b|[+&/]`, case-insensitive): cut the input at every
connector-word or `+`/`&`/`/` occurrence, scanning left to right.  The fuel
always exceeds the input length, so it never runs out. -/
def splitConnectorsAux : ℕ → Option Char → List Char → List Char → List (List Char)
  | 0, _, acc, rest => [acc.reverse ++ rest]
  | _ + 1, _, acc, [] => [acc.reverse]
  | fuel + 1, prev, acc, c :: rest =>
    if c == '+' || c == '&' || c == '/' then
      acc.reverse :: splitConnectorsAux fuel (some c) [] rest
    else
      match matchAnyWordAt connectorWords prev (c :: rest) with
      | some (lastChar, after) =>
        acc.reverse :: splitConnectorsAux fuel (some lastChar) [] after
      | none => splitConnectorsAux fuel (some c) (c :: acc) rest

/-- `re.split(COMPOSITE_CONNECTOR_PATTERN, name)`, with the connector
captures already removed (the source removes them right afterwards by the
`not in CONNECTOR_TOKENS` filter). -/
def splitByConnectors (name : String) : List (List Char) :=
  splitConnectorsAux (name.data.length + 1) none [] name.data

/-- `_split_composite_food_name`. -/
def splitCompositeFoodName (name : String) : List String :=
  let parts := (splitByConnectors name).filterMap (fun p =>
    let s := stripChars ⟨p⟩ segmentStripChars
    if s ≠ "" ∧ ¬ CONNECTOR_TOKENS.contains (pyLower s) then some s else none)
  if parts.length ≤ 1 then [pyStrip name] else parts

/-! ### Shape-tolerant extraction of items from the collaborator response -/

/-- A decoded JSON value, the shape handed back by the external
language-understanding collaborator. -/
inductive JsonVal where
  | null
  | bool (b : Bool)
  | num (q : ℚ)
  | str (s : String)
  | arr (items : List JsonVal)
  | obj (fields : List (String × JsonVal))
deriving Repr

/-- `dict.get(key)` on a decoded JSON object. -/
def jGet (j : JsonVal) (key : String) : Option JsonVal :=
  match j with
  | .obj fields => (fields.find? (fun p => p.1 == key)).map (·.2)
  | _ => none

/-- Python truthiness of a decoded JSON value. -/
def jTruthy : JsonVal → Bool
  | .null => false
  | .bool b => b
  | .num q => decide (q ≠ 0)
  | .str s => s ≠ ""
  | .arr items => !items.isEmpty
  | .obj fields => !fields.isEmpty

/-- `ITEM_CONTAINER_KEYS ++ NESTED_CONTAINER_KEYS`, in the order the
collector walks them. -/
def CONTAINER_KEYS : List String :=
  ["items", "foods", "food_items", "alimentos", "meals", "comidas"]

/-- The item shape test of `_collect_food_item_candidates`: all of
`name`, `quantity`, `unit` present. -/
def hasItemShape (j : JsonVal) : Bool :=
  (jGet j "name").isSome && (jGet j "quantity").isSome && (jGet j "unit").isSome

/-- `_collect_food_item_candidates`, driven by a fuel argument that the
wrapper instantiates above any possible nesting depth (`sizeOf`), so the
recursion never exhausts it. Lists recurse into children; objects
contribute themselves when item-shaped, then recurse into the recognized
container keys. -/
def collectCandidatesFuel : ℕ → JsonVal → List JsonVal
  | 0, _ => []
  | fuel + 1, .arr children => children.flatMap (collectCandidatesFuel fuel)
  | _, .null | _, .bool _ | _, .num _ | _, .str _ => []
  | fuel + 1, .obj fields =>
    let node := JsonVal.obj fields
    let self := if hasItemShape node then [node] else []
    self ++ CONTAINER_KEYS.flatMap (fun key =>
      match jGet node key with
      | some (.arr children) => children.flatMap (collectCandidatesFuel fuel)
      | _ => [])

mutual

/-- Structural size of a decoded JSON value, used as the fuel bound of the
candidate collector. -/
def jsonSize : JsonVal → ℕ
  | .null | .bool _ | .num _ | .str _ => 1
  | .arr items => 1 + jsonListSize items
  | .obj fields => 1 + jsonFieldsSize fields

/-- Structural size of a JSON array body. -/
def jsonListSize : List JsonVal → ℕ
  | [] => 0
  | j :: js => 1 + jsonSize j + jsonListSize js

/-- Structural size of a JSON object body. -/
def jsonFieldsSize : List (String × JsonVal) → ℕ
  | [] => 0
  | f :: fs => 1 + jsonSize f.2 + jsonFieldsSize fs

end

/-- `_collect_food_item_candidates` on a decoded response. -/
def collectFoodItemCandidates (data : JsonVal) : List JsonVal :=
  collectCandidatesFuel (jsonSize data) data

/-- `ParsedFoodPayload(**item)` under pydantic: exactly the keys `name`,
`quantity`, `unit` (`extra="forbid"`), a string name of 1-200 characters,
a numeric quantity strictly above 0, a string unit of 1-20 characters.
Returns `none` where pydantic raises (the caller skips such items). -/
def validatePayload (j : JsonVal) : Option ParsedFoodPayload :=
  match j with
  | .obj fields =>
    if fields.all (fun p => p.1 == "name" || p.1 == "quantity" || p.1 == "unit") then
      match jGet j "name", jGet j "quantity", jGet j "unit" with
      | some (.str n), some (.num q), some (.str u) =>
        if 1 ≤ n.length ∧ n.length ≤ 200 ∧ 0 < q ∧ 1 ≤ u.length ∧ u.length ≤ 20 then
          some ⟨n, q, u⟩
        else none
      | _, _, _ => none
    else none
  | _ => none

/-- `_expand_composite_item`. -/
def expandCompositeItem (item : ParsedFoodPayload) : List ParsedFoodPayload :=
  let name := pyStrip item.name
  if name = "" then []
  else if coffeeMilkSearch name && isServingUnit item.unit then
    let half_quantity := pyRound4 (item.quantity * mkRat 5 10)
    [⟨"coffee", half_quantity, "cup"⟩, ⟨"milk", half_quantity, "cup"⟩]
  else
    let parts := splitCompositeFoodName name
    if parts.length = 1 then [item]
    else
      let each_quantity := pyRound4 (item.quantity * mkRat 1 parts.length)
      let expanded := (parts.filter (fun p => p ≠ "")).map
        (fun part => (⟨part, each_quantity, item.unit⟩ : ParsedFoodPayload))
      if expanded.isEmpty then [item] else expanded

/-- `_has_explicit_quantity`: the raw text contains a digit. -/
def hasExplicitQuantity (text : String) : Bool := text.data.any Char.isDigit

/-- The keyword test of the coffee-with-milk override on one item name. -/
def containsCoffeeOrMilk (name : String) : Bool :=
  let lowered := pyStrip (pyLower name)
  strHasSub "coffee" lowered || strHasSub "cafe" lowered || strHasSub "café" lowered ||
  strHasSub "milk" lowered || strHasSub "leche" lowered

/-- The deterministic half-cup pair produced by the coffee-with-milk
override. -/
def coffeeMilkPair : List ParsedFoodPayload :=
  [⟨"coffee", mkRat 5 10, "cup"⟩, ⟨"milk", mkRat 5 10, "cup"⟩]

/-- The truthy `data.get("error")` marker check of `parse_food_input`. -/
def errorMarkerOf (data : JsonVal) : Option JsonVal :=
  match data with
  | .obj _ =>
    match jGet data "error" with
    | some v => if jTruthy v then some v else none
    | none => none
  | _ => none

/-- `parse_food_input`, with the external collaborator call
(`parse_food_with_gemini`) passed in as its outcome `ai`: either a typed
failure (re-raised as the parser's own failure) or a decoded response. -/
def parseFoodInput (text : String) (ai : Except String JsonVal) :
    Except String (List ParsedFoodPayload) :=
  if text = "" ∨ pyStrip text = "" then .error "insufficient_data"
  else
    match ai with
    | .error e => .error e
    | .ok data =>
      match errorMarkerOf data with
      | some (.str "invalid_domain") => .error "invalid_domain"
      | some (.str "insufficient_data") => .error "insufficient_data"
      | some _ => .error "malformed_parser_response"
      | none =>
        let raw_items := collectFoodItemCandidates data
        if raw_items.isEmpty then .error "malformed_parser_response"
        else
          let parsed_items := raw_items.filterMap validatePayload
          if parsed_items.isEmpty then .error "malformed_parser_response"
          else
            let expanded_items := parsed_items.flatMap expandCompositeItem
            if expanded_items.isEmpty then .error "malformed_parser_response"
            else
              if coffeeMilkSearch text && !hasExplicitQuantity text then
                let normalized_items :=
                  expanded_items.filter (fun i => !containsCoffeeOrMilk i.name)
                let has_coffee_or_milk :=
                  expanded_items.any (fun i => containsCoffeeOrMilk i.name)
                if has_coffee_or_milk then .ok (coffeeMilkPair ++ normalized_items)
                else if expanded_items.length = 1 then .ok coffeeMilkPair
                else .ok expanded_items
              else .ok expanded_items

/-- The `FoodParseRequest` schema validation (`app/schemas/food.py`):
`text` must have between 3 and 3000 characters; violations surface as a
generic request-validation error, not as a parser failure. -/
def foodParseRequestValid (text : String) : Bool :=
  decide (3 ≤ text.length) && decide (text.length ≤ 3000)

/-- A single-item collaborator payload `{name, quantity, unit}`. -/
def singleItemJson (name : String) (quantity : ℚ) (unit : String) : JsonVal :=
  .obj [("name", .str name), ("quantity", .num quantity), ("unit", .str unit)]

/-! ## Meal assembler item resolution (`app/services/food_service.py`) -/

/-- The columns of a cached `FoodEntry` audit row read by
`_resolve_item_nutrition` (`app/models/food.py`). -/
structure CachedFoodEntry where
  usda_fdc_id : String
  calories_per_100g : ℚ
deriving Repr, DecidableEq

/-- `USDAFoodResult` (`app/services/usda_service.py`), restricted to the
fields read by the meal assembler; `search_food_by_name` itself is the
candidate-matcher collaborator, passed in as its outcome. -/
structure USDAFoodResult where
  fdc_id : String
  calories_per_100g : ℚ
  carbs_per_100g : ℚ
  protein_per_100g : ℚ
  fat_per_100g : ℚ
  serving_size_grams : Option ℚ
deriving Repr, DecidableEq

/-- The ten-component result tuple of `_resolve_item_nutrition`. -/
structure ItemNutrition where
  usda_fdc_id : String
  quantity_grams : ℚ
  calories_per_100g : ℚ
  carbs_per_100g : ℚ
  protein_per_100g : ℚ
  fat_per_100g : ℚ
  total_calories : ℚ
  total_carbs : ℚ
  total_protein : ℚ
  total_fat : ℚ
deriving Repr, DecidableEq

/-- `FoodService.DEFAULT_SERVING_GRAMS`. -/
def DEFAULT_SERVING_GRAMS : ℚ := 100

/-- `FoodService._resolve_item_nutrition`, with the prior-audit-row lookup
(`cached_entry`) and the candidate matcher (`usda_lookup`,
`search_food_by_name`) passed in as their outcomes. -/
def resolveItemNutrition (cached_entry : Option CachedFoodEntry)
    (usda_lookup : Except String USDAFoodResult)
    (quantity : ℚ) (unit : String) : Except String ItemNutrition :=
  if quantity ≤ 0 then .error "insufficient_data"
  else
    let parsed_unit := pyLower (pyStrip unit)
    let requires_serving_resolution := isServingUnit parsed_unit
    let branch : Except String (String × ℚ × ℚ × ℚ × ℚ × Option USDAFoodResult) :=
      match cached_entry, requires_serving_resolution with
      | some ce, false =>
        (match usda_lookup with
         | .ok m =>
             .ok (ce.usda_fdc_id, ce.calories_per_100g,
                  m.carbs_per_100g, m.protein_per_100g, m.fat_per_100g, some m)
         | .error _ =>
             .ok (ce.usda_fdc_id, ce.calories_per_100g, 0, 0, 0, none))
      | _, _ =>
        (match usda_lookup with
         | .ok m =>
             .ok (m.fdc_id, m.calories_per_100g,
                  m.carbs_per_100g, m.protein_per_100g, m.fat_per_100g, some m)
         | .error e => .error e)
    match branch with
    | .error e => .error e
    | .ok (usda_fdc_id, calories, carbs, protein, fat, usda_match) =>
      let quantity_grams_e : Except String ℚ :=
        if requires_serving_resolution then
          let serving_size_grams :=
            (usda_match.bind (·.serving_size_grams)).getD DEFAULT_SERVING_GRAMS
          .ok (pyRound2 (quantity * serving_size_grams))
        else convertToGrams quantity parsed_unit none
      match quantity_grams_e with
      | .error e => .error e
      | .ok quantity_grams =>
        if quantity_grams ≤ 0 then .error "insufficient_data"
        else
          .ok ⟨usda_fdc_id, quantity_grams, calories, carbs, protein, fat,
               pyRound2 (calories * mkRat 1 100 * quantity_grams),
               pyRound2 (carbs * mkRat 1 100 * quantity_grams),
               pyRound2 (protein * mkRat 1 100 * quantity_grams),
               pyRound2 (fat * mkRat 1 100 * quantity_grams)⟩

/-! ## USDA provider connector
(`app/services/connectors/usda_connector.py`) -/

/-- Outcome of one HTTP call: a timeout, any other transport or status
error (`raise_for_status`), or a 2xx response whose body may or may not be
decodable JSON. -/
inductive HttpOutcome where
  | timeout
  | httpError
  | success (body : Option JsonVal)
deriving Repr

/-- Python `str(x)` on a decoded JSON value; container and number cases
are placeholder renderings (only their non-emptiness matters here). -/
def pyStr : JsonVal → String
  | .str s => s
  | .null => "None"
  | .bool true => "True"
  | .bool false => "False"
  | .num _ => "<number>"
  | .arr _ => "<list>"
  | .obj _ => "<dict>"

/-- `str(d.get(key, ""))`. -/
def pyStrOf (j : JsonVal) (key : String) : String :=
  pyStr ((jGet j key).getD (.str ""))

/-- Python `float(value)` on a decoded JSON value (`TypeError`/`ValueError`
become `none`). -/
def jFloat : JsonVal → Option ℚ
  | .num q => some q
  | .bool b => some (if b then 1 else 0)
  | .str s =>
    let cs := (pyStrip s).data
    let body := if cs.headD ' ' == '-' then cs.tail else cs
    if body ≠ [] && body.all (fun c => c.isDigit || c == '.')
        && (body.filter (· == '.')).length ≤ 1 && body.head? ≠ some '.'
        && body.getLast? ≠ some '.' then
      some (if cs.headD ' ' == '-' then -parseDecimalChars body else parseDecimalChars body)
    else none
  | _ => none

/-- `_extract_kcal_per_100g`'s scan: the first energy/KCAL nutrient decides
the outcome (a missing or unconvertible value returns `None`, it does not
continue the scan). -/
def kcalLoop : List JsonVal → Option ℚ
  | [] => none
  | n :: rest =>
    match n with
    | .obj _ =>
      let nutrient_name := pyLower (pyStrOf n "nutrientName")
      let unit_name := pyUpper (pyStrOf n "unitName")
      if strHasSub "energy" nutrient_name && unit_name == "KCAL" then
        match jGet n "value" with
        | none => none
        | some .null => none
        | some v => jFloat v
      else kcalLoop rest
    | _ => kcalLoop rest

/-- `_extract_kcal_per_100g`. -/
def extractKcalPer100g (food : JsonVal) : Option ℚ :=
  match jGet food "foodNutrients" with
  | some (.arr nutrients) => kcalLoop nutrients
  | some _ => none
  | none => none

/-- `_extract_macros_per_100g`'s accumulation loop. -/
def macroLoop : List JsonVal → ℚ → ℚ → ℚ → Option ℚ → ℚ × ℚ × ℚ × Option ℚ
  | [], carbs, protein, fat, fiber => (carbs, protein, fat, fiber)
  | n :: rest, carbs, protein, fat, fiber =>
    match n with
    | .obj _ =>
      let nutrient_name := pyLower (pyStrOf n "nutrientName")
      let nutrient_number := pyStrip (pyStrOf n "nutrientNumber")
      let unit_name := pyUpper (pyStrOf n "unitName")
      if unit_name ≠ "G" then macroLoop rest carbs protein fat fiber
      else
        match jGet n "value" with
        | none => macroLoop rest carbs protein fat fiber
        | some .null => macroLoop rest carbs protein fat fiber
        | some v =>
          match jFloat v with
          | none => macroLoop rest carbs protein fat fiber
          | some value =>
            if nutrient_number == "1005" || strHasSub "carbohydrate" nutrient_name then
              macroLoop rest value protein fat fiber
            else if nutrient_number == "1003" || strHasSub "protein" nutrient_name then
              macroLoop rest carbs value fat fiber
            else if nutrient_number == "1004" || strHasSub "total lipid" nutrient_name
                || nutrient_name == "fat" then
              macroLoop rest carbs protein value fiber
            else if nutrient_number == "1079" || strHasSub "fiber" nutrient_name then
              macroLoop rest carbs protein fat (some value)
            else macroLoop rest carbs protein fat fiber
    | _ => macroLoop rest carbs protein fat fiber

/-- `_extract_macros_per_100g`. -/
def extractMacrosPer100g (food : JsonVal) : ℚ × ℚ × ℚ × Option ℚ :=
  match jGet food "foodNutrients" with
  | some (.arr nutrients) => macroLoop nutrients 0 0 0 none
  | _ => (0, 0, 0, none)

/-- Normalization of one USDA search hit (the body of the result loop of
`USDAConnector.search`). -/
def usdaNormalizeFood (food : JsonVal) : Option FoodNormalized :=
  match food with
  | .obj _ =>
    let description := pyStrip (pyStrOf food "description")
    if description = "" then none
    else
      match extractKcalPer100g food with
      | none => none
      | some calories =>
        let macros := extractMacrosPer100g food
        let brand := pyStrip (pyStrOf food "brandOwner")
        some ⟨description,
              if brand ≠ "" then some brand else none,
              pyRound2 calories,
              pyRound2 macros.2.2.1,
              pyRound2 macros.2.1,
              pyRound2 macros.1,
              macros.2.2.2.map pyRound2,
              "usda",
              clampConfidence (mkRat 9 10)⟩
  | _ => none

/-- `USDAConnector.search`, over the configured API key and the HTTP
outcome.  The `try` block covers only the request itself
(`httpx.TimeoutException` / `httpx.HTTPError`); `response.json()` runs
after it, so an undecodable 2xx body surfaces as a raised
`json.JSONDecodeError` (the `.error` case), not as an empty list. -/
def usdaConnectorSearch (apiKey : String) (resp : HttpOutcome) :
    Except String (List FoodNormalized) :=
  if apiKey = "" then .ok []
  else
    match resp with
    | .timeout => .ok []
    | .httpError => .ok []
    | .success none => .error "json.JSONDecodeError"
    | .success (some data) =>
      match data with
      | .obj _ =>
        match jGet data "foods" with
        | some (.arr foods) => .ok (foods.filterMap usdaNormalizeFood)
        | some _ => .ok []
        | none => .ok []
      | _ => .ok []

/-! ## Statement-level definitions -/

/-- One portion-resolution request (the arguments of one
`resolve_portion_grams` call). -/
structure ResolveReq where
  food_name : String
  unit : String
  preferred_serving_grams : Option ℚ
deriving Repr

/-- A sequence of sequential portion resolutions, threading the cache. -/
def runResolutions (providers : List ProviderFn) (db : List CacheRow) :
    List ResolveReq → List CacheRow
  | [] => db
  | r :: rs =>
    runResolutions providers
      (resolvePortionGrams providers db r.food_name r.unit r.preferred_serving_grams).cache rs

/-- The `(normalized_name, unit_normalized)` key of a cache row. -/
def cacheKey (r : CacheRow) : String × String := (r.normalized_name, r.unit_normalized)

/-- At most one live row per `(normalized name, normalized unit)` key. -/
def DistinctCacheKeys (db : List CacheRow) : Prop :=
  List.Pairwise (fun a b => cacheKey a ≠ cacheKey b) db

/-- A decoded OpenFoodFacts product whose `serving_size` free text reads
`"0 g"` — community data of this shape exists, and the text extraction
path has no positivity guard. -/
def zeroGramProduct : OffProduct :=
  { product_name_en := "Cola Zero", product_name := "",
    serving_quantity := none, serving_quantity_unit := "", serving_size := "0 g" }

/-- A reachable provider chain: USDA and FatSecret without credentials,
OpenFoodFacts answering with `zeroGramProduct` (the fuzzy scorer is
irrelevant for a single product). -/
def zeroGramProviderChain : List ProviderFn :=
  [providerWithoutCredentials, providerWithoutCredentials,
   fun n u => resolveFromOpenFoodFactsDecoded (fun _ _ => 0) [zeroGramProduct] n u]

/-! ## Resolver provider helpers with their HTTP step
(`portion_resolver_service.py` lines 236-540): each helper wraps its
`httpx` call in a `try` that catches only `httpx.HTTPError` (timeouts
included), while `response.json()` runs after the `try` block, so a 2xx
response whose body is not valid JSON raises `json.JSONDecodeError` out
of the helper — and `resolve_portion_grams` has no handler of its own. -/

/-- A provider helper modelled with its exception channel: `.error e`
is an exception `e` escaping the helper. -/
def ProviderTry : Type := String → String → Except String (Option PortionResolution)

/-- `_resolve_from_openfoodfacts` including its HTTP fetch
(`portion_resolver_service.py` lines 443-526): a transport error or
error status is caught and the helper returns `None`; a 2xx body that is
not valid JSON raises `json.JSONDecodeError` at the `response.json()`
call on line 460, outside the `try` of lines 444-459; a decodable body
is handed to the decoded-payload path, `productsOf` standing for the
read of the `products` list out of the decoded document. -/
def offProviderWithHttp (fuzzPTSR : String → String → ℚ)
    (outcome : HttpOutcome) (productsOf : JsonVal → List OffProduct) : ProviderTry :=
  fun n u =>
    match outcome with
    | .timeout => .ok none
    | .httpError => .ok none
    | .success none => .error "json.JSONDecodeError"
    | .success (some body) =>
        .ok (resolveFromOpenFoodFactsDecoded fuzzPTSR (productsOf body) n u)

/-- A provider that never raises, lifted into the exception-aware type. -/
def liftProvider (p : ProviderFn) : ProviderTry := fun n u => .ok (p n u)

/-- The provider loop of `resolve_portion_grams` over helpers that may
raise: an escaping exception aborts the loop and propagates. -/
def runProvidersTry : List ProviderTry → String → String →
    Except String (Option PortionResolution × ℕ)
  | [], _, _ => .ok (none, 0)
  | p :: ps, n, u =>
    match p n u with
    | .error e => .error e
    | .ok (some r) => .ok (some r, 1)
    | .ok none =>
        match runProvidersTry ps n u with
        | .error e => .error e
        | .ok rest => .ok (rest.1, rest.2 + 1)

/-- Steps 2-5 of the resolution chain of `resolve_portion_grams` with
the providers' exception channel threaded through. -/
def resolveViaProvidersTry (providers : List ProviderTry) (db : List CacheRow)
    (normalized_name normalized_unit : String) : Except String ResolveOut :=
  match runProvidersTry providers normalized_name normalized_unit with
  | .error e => .error e
  | .ok (some resolution, calls) =>
      .ok ⟨resolution.grams_per_unit,
           upsertCache db normalized_name normalized_unit resolution, calls⟩
  | .ok (none, calls) =>
      let category := detectCategory normalized_name
      let fallback_value := categoryFallbackGrams category normalized_unit
      let fallback_resolution : PortionResolution :=
        ⟨fallback_value, "category_fallback", FALLBACK_CONFIDENCE, some category⟩
      .ok ⟨fallback_value,
           upsertCache db normalized_name normalized_unit fallback_resolution, calls⟩

/-- `PortionResolverService.resolve_portion_grams` with the provider
helpers' exception channel made explicit: the method installs no handler,
so an exception raised inside a helper propagates to the caller. -/
def resolvePortionGramsTry (providers : List ProviderTry) (db : List CacheRow)
    (food_name unit : String) (preferred_serving_grams : Option ℚ) :
    Except String ResolveOut :=
  let normalized_name := pyLower (pyStrip food_name)
  let normalized_unit := normalizeUnit unit
  if normalized_name = "" then
    .ok ⟨tblGetD genericFallbackTable normalized_unit 100, db, 0⟩
  else
    match getCachedResolution db normalized_name normalized_unit with
    | some cached => .ok ⟨cached.grams_per_unit, db, 0⟩
    | none =>
      match preferred_serving_grams with
      | some p =>
        if normalized_unit = "serving" ∧ p ≠ 0 ∧ 0 < p then
          let resolution : PortionResolution :=
            ⟨p, "usda", USDA_CONFIDENCE, some (detectCategory normalized_name)⟩
          .ok ⟨resolution.grams_per_unit,
               upsertCache db normalized_name normalized_unit resolution, 0⟩
        else
          resolveViaProvidersTry providers db normalized_name normalized_unit
      | none => resolveViaProvidersTry providers db normalized_name normalized_unit

/-! # Theorems -/

/-! ## Shared lemmas about the embedded resolver -/

theorem tblGetD_pos {tbl : List (String × ℚ)} {u : String} {d : ℚ}
    (htbl : ∀ p ∈ tbl, 0 < p.2) (hd : 0 < d) : 0 < tblGetD tbl u d := by
  unfold tblGetD tblGet
  cases hfind : tbl.find? (fun p => p.1 == u) with
  | none => simpa using hd
  | some p => simpa using htbl p (List.mem_of_find?_eq_some hfind)

theorem categoryFallbackGrams_pos (category normalized_unit : String) :
    0 < categoryFallbackGrams category normalized_unit := by
  have hgen : ∀ p ∈ genericFallbackTable, 0 < p.2 := by decide
  have hinner : 0 < tblGetD genericFallbackTable normalized_unit 100 :=
    tblGetD_pos hgen (by norm_num)
  unfold categoryFallbackGrams
  cases hfind : CATEGORY_FALLBACK_GRAMS.find? (fun p => p.1 == category) with
  | none => simpa [hfind] using tblGetD_pos hgen hinner
  | some p =>
    have hp : p ∈ CATEGORY_FALLBACK_GRAMS := List.mem_of_find?_eq_some hfind
    have hall : ∀ r ∈ CATEGORY_FALLBACK_GRAMS, ∀ q ∈ r.2, 0 < q.2 := by decide
    simpa [hfind] using tblGetD_pos (hall p hp) hinner

theorem runProviders_pos {providers : List ProviderFn} {n u : String}
    {r : PortionResolution}
    (hprov : ∀ p ∈ providers, ∀ n' u' r', p n' u' = some r' → 0 < r'.grams_per_unit)
    (h : (runProviders providers n u).1 = some r) : 0 < r.grams_per_unit := by
  induction providers with
  | nil => simp [runProviders] at h
  | cons p ps ih =>
    rw [runProviders] at h
    cases hp : p n u with
    | some r0 =>
      rw [hp] at h
      exact Option.some.inj h ▸ hprov p (List.mem_cons_self p ps) n u r0 hp
    | none =>
      rw [hp] at h
      exact ih (fun q hq => hprov q (List.mem_cons_of_mem p hq)) h

theorem getCached_pos {db : List CacheRow} {n u : String} {c : PortionResolution}
    (hdb : ∀ row ∈ db, 0 < row.grams_per_unit)
    (h : getCachedResolution db n u = some c) : 0 < c.grams_per_unit := by
  unfold getCachedResolution at h
  cases hfind : db.find? (cacheKeyMatch n u) with
  | none => rw [hfind] at h; simp at h
  | some row =>
    rw [hfind] at h
    simp only [Option.map_some'] at h
    have := hdb row (List.mem_of_find?_eq_some hfind)
    rw [← Option.some.inj h]
    exact this

theorem resolveViaProviders_pos (providers : List ProviderFn) (db : List CacheRow)
    (n u : String)
    (hprov : ∀ p ∈ providers, ∀ n' u' r', p n' u' = some r' → 0 < r'.grams_per_unit) :
    0 < (resolveViaProviders providers db n u).grams := by
  unfold resolveViaProviders
  cases hrun : runProviders providers n u with
  | mk o k =>
    cases o with
    | some r =>
      have : (runProviders providers n u).1 = some r := by rw [hrun]
      simpa using runProviders_pos hprov this
    | none => simpa using categoryFallbackGrams_pos (detectCategory n) u

/-- Conditional positivity of the embedded resolver: for every food
name, unit string and optional preferred serving size, for every cache
state whose rows all have positive `grams_per_unit`, and provided every
provider-returned resolution carries a positive `grams_per_unit`, the
result of `resolve_portion_grams` is strictly greater than 0. Both
hypotheses are needed: the counterexample below breaches the provider
one through a real Open Food Facts payload. -/
theorem resolvePortionGrams_pos
    (providers : List ProviderFn) (db : List CacheRow)
    (food_name unit : String) (preferred : Option ℚ)
    (hdb : ∀ row ∈ db, 0 < row.grams_per_unit)
    (hprov : ∀ p ∈ providers, ∀ n u r, p n u = some r → 0 < r.grams_per_unit) :
    0 < (resolvePortionGrams providers db food_name unit preferred).grams := by
  unfold resolvePortionGrams
  by_cases hname : pyLower (pyStrip food_name) = ""
  · simp only [hname, if_pos rfl]
    exact tblGetD_pos (by decide) (by norm_num)
  · simp only [if_neg hname]
    cases hcache :
        getCachedResolution db (pyLower (pyStrip food_name)) (normalizeUnit unit) with
    | some cached => simpa using getCached_pos hdb hcache
    | none =>
      cases preferred with
      | none => exact resolveViaProviders_pos providers db _ _ hprov
      | some p =>
        by_cases hcond : normalizeUnit unit = "serving" ∧ p ≠ 0 ∧ 0 < p
        · simp only [if_pos hcond]
          exact hcond.2.2
        · simp only [if_neg hcond]
          exact resolveViaProviders_pos providers db _ _ hprov

/-- Instance of the positivity lemma: an empty cache trivially satisfies
the row hypothesis, an empty provider chain the provider hypothesis, and
the resolution of one cup of rice is positive (the 158 g grain
fallback). -/
theorem resolvePortionGrams_pos_witness :
    (∀ row ∈ ([] : List CacheRow), 0 < row.grams_per_unit) ∧
    0 < (resolvePortionGrams [] [] "rice" "cup" none).grams :=
  ⟨by simp, resolvePortionGrams_pos [] [] "rice" "cup" none (by simp) (by simp)⟩

/-- C1 counterexample to the claimed strict positivity: with USDA and
FatSecret unconfigured and OpenFoodFacts returning a product whose
`serving_size` text is `"0 g"` (a payload the extraction accepts with no
positivity check, `portion_resolver_service.py` lines 492-505),
`resolve_portion_grams` returns 0 (and caches it) for
`("cola", "serving")` on an all-positive (empty) cache. -/
theorem resolvePortionGrams_zero_counterexample :
    (∀ row ∈ ([] : List CacheRow), 0 < row.grams_per_unit) ∧
    ¬ (0 < (resolvePortionGrams zeroGramProviderChain [] "cola" "serving" none).grams) :=
  ⟨by simp, by decide⟩

theorem getCached_after_upsert {db : List CacheRow} {n u : String}
    {res : PortionResolution}
    (h : getCachedResolution db n u = none) :
    getCachedResolution (upsertCache db n u res) n u =
      some ⟨res.grams_per_unit, res.source, res.confidence_score, res.category⟩ := by
  have hfind : db.find? (cacheKeyMatch n u) = none := by
    unfold getCachedResolution at h
    cases hf : db.find? (cacheKeyMatch n u) with
    | none => rfl
    | some r => rw [hf] at h; simp at h
  unfold upsertCache
  rw [hfind]
  unfold getCachedResolution
  rw [List.find?_append, hfind]
  simp [cacheKeyMatch]

theorem resolve_after_upsert (providers : List ProviderFn) (db : List CacheRow)
    (food_name unit : String) (preferred : Option ℚ) (res : PortionResolution)
    (hname : pyLower (pyStrip food_name) ≠ "")
    (hmiss : getCachedResolution db (pyLower (pyStrip food_name)) (normalizeUnit unit) = none) :
    resolvePortionGrams providers
        (upsertCache db (pyLower (pyStrip food_name)) (normalizeUnit unit) res)
        food_name unit preferred =
      ⟨res.grams_per_unit,
       upsertCache db (pyLower (pyStrip food_name)) (normalizeUnit unit) res, 0⟩ := by
  unfold resolvePortionGrams
  rw [if_neg hname, getCached_after_upsert hmiss]

theorem resolveViaProviders_shape (providers : List ProviderFn) (db : List CacheRow)
    (n u : String) :
    ∃ res : PortionResolution, ∃ calls : ℕ,
      resolveViaProviders providers db n u =
        ⟨res.grams_per_unit, upsertCache db n u res, calls⟩ := by
  unfold resolveViaProviders
  cases hrun : runProviders providers n u with
  | mk o k =>
    cases o with
    | some r => exact ⟨r, k, rfl⟩
    | none =>
      exact ⟨⟨categoryFallbackGrams (detectCategory n) u, "category_fallback",
              FALLBACK_CONFIDENCE, some (detectCategory n)⟩, k, rfl⟩

theorem resolve_miss_shape (providers : List ProviderFn) (db : List CacheRow)
    (food_name unit : String) (preferred : Option ℚ)
    (hname : pyLower (pyStrip food_name) ≠ "")
    (hmiss : getCachedResolution db (pyLower (pyStrip food_name)) (normalizeUnit unit) = none) :
    ∃ res : PortionResolution, ∃ calls : ℕ,
      resolvePortionGrams providers db food_name unit preferred =
        ⟨res.grams_per_unit,
         upsertCache db (pyLower (pyStrip food_name)) (normalizeUnit unit) res, calls⟩ := by
  unfold resolvePortionGrams
  rw [if_neg hname, hmiss]
  dsimp only
  cases preferred with
  | none => exact resolveViaProviders_shape providers db _ _
  | some p =>
    dsimp only
    by_cases hcond : normalizeUnit unit = "serving" ∧ p ≠ 0 ∧ 0 < p
    · refine ⟨⟨p, "usda", USDA_CONFIDENCE,
               some (detectCategory (pyLower (pyStrip food_name)))⟩, 0, ?_⟩
      rw [if_pos hcond]
    · rw [if_neg hcond]
      exact resolveViaProviders_shape providers db _ _

/-- C2: resolving the same `(name, unit)` (with the same preferred serving
hint) twice in succession returns an identical gram value on the second
call, and the second call performs no external provider lookup: whatever
the first call resolved was written to the cache (or was already there)
and answers the second call. Proven for every food name and unit,
including the degenerate blank-name case. -/
theorem resolvePortionGrams_idempotent
    (providers : List ProviderFn) (db : List CacheRow)
    (food_name unit : String) (preferred : Option ℚ) :
    (resolvePortionGrams providers
        (resolvePortionGrams providers db food_name unit preferred).cache
        food_name unit preferred).grams =
      (resolvePortionGrams providers db food_name unit preferred).grams ∧
    (resolvePortionGrams providers
        (resolvePortionGrams providers db food_name unit preferred).cache
        food_name unit preferred).providerCalls = 0 := by
  by_cases hname : pyLower (pyStrip food_name) = ""
  · have h1 : resolvePortionGrams providers db food_name unit preferred =
        ⟨tblGetD genericFallbackTable (normalizeUnit unit) 100, db, 0⟩ := by
      unfold resolvePortionGrams
      rw [if_pos hname]
    rw [h1]
    rw [show (⟨tblGetD genericFallbackTable (normalizeUnit unit) 100, db, 0⟩ :
          ResolveOut).cache = db from rfl, h1]
    exact ⟨rfl, rfl⟩
  · cases hcache :
        getCachedResolution db (pyLower (pyStrip food_name)) (normalizeUnit unit) with
    | some cached =>
      have h1 : resolvePortionGrams providers db food_name unit preferred =
          ⟨cached.grams_per_unit, db, 0⟩ := by
        unfold resolvePortionGrams
        rw [if_neg hname, hcache]
      rw [h1]
      rw [show (⟨cached.grams_per_unit, db, 0⟩ : ResolveOut).cache = db from rfl, h1]
      exact ⟨rfl, rfl⟩
    | none =>
      obtain ⟨res, calls, h1⟩ :=
        resolve_miss_shape providers db food_name unit preferred hname hcache
      rw [h1]
      rw [show (⟨res.grams_per_unit,
            upsertCache db (pyLower (pyStrip food_name)) (normalizeUnit unit) res,
            calls⟩ : ResolveOut).cache =
          upsertCache db (pyLower (pyStrip food_name)) (normalizeUnit unit) res from rfl]
      rw [resolve_after_upsert providers db food_name unit preferred res hname hcache]
      exact ⟨rfl, rfl⟩

theorem mem_replaceFirst_key {p : CacheRow → Bool} {f : CacheRow → CacheRow}
    (hf : ∀ r, cacheKey (f r) = cacheKey r) :
    ∀ {l : List CacheRow} {a : CacheRow}, a ∈ replaceFirst p f l →
      ∃ b ∈ l, cacheKey a = cacheKey b := by
  intro l
  induction l with
  | nil => intro a ha; simp [replaceFirst] at ha
  | cons r rs ih =>
    intro a ha
    unfold replaceFirst at ha
    by_cases hp : p r
    · rw [if_pos hp] at ha
      rcases List.mem_cons.mp ha with h | h
      · exact ⟨r, List.mem_cons_self r rs, h ▸ hf r⟩
      · exact ⟨a, List.mem_cons_of_mem r h, rfl⟩
    · rw [if_neg hp] at ha
      rcases List.mem_cons.mp ha with h | h
      · exact ⟨r, List.mem_cons_self r rs, by rw [h]⟩
      · obtain ⟨b, hb, hkey⟩ := ih h
        exact ⟨b, List.mem_cons_of_mem r hb, hkey⟩

theorem replaceFirst_pairwise {p : CacheRow → Bool} {f : CacheRow → CacheRow}
    (hf : ∀ r, cacheKey (f r) = cacheKey r) :
    ∀ {l : List CacheRow}, DistinctCacheKeys l → DistinctCacheKeys (replaceFirst p f l) := by
  intro l
  induction l with
  | nil => intro h; simpa [replaceFirst] using h
  | cons r rs ih =>
    intro h
    rw [DistinctCacheKeys, List.pairwise_cons] at h
    unfold replaceFirst
    by_cases hp : p r
    · rw [if_pos hp]
      rw [DistinctCacheKeys, List.pairwise_cons]
      exact ⟨fun a ha => (hf r) ▸ h.1 a ha, h.2⟩
    · rw [if_neg hp]
      rw [DistinctCacheKeys, List.pairwise_cons]
      refine ⟨fun a ha => ?_, ih h.2⟩
      obtain ⟨b, hb, hkey⟩ := mem_replaceFirst_key hf ha
      rw [hkey]
      exact h.1 b hb

theorem upsertCache_distinct {db : List CacheRow} {n u : String}
    {res : PortionResolution} (h : DistinctCacheKeys db) :
    DistinctCacheKeys (upsertCache db n u res) := by
  unfold upsertCache
  cases hfind : db.find? (cacheKeyMatch n u) with
  | none =>
    rw [List.find?_eq_none] at hfind
    rw [DistinctCacheKeys, List.pairwise_append]
    refine ⟨h, List.pairwise_singleton _ _, fun a ha b hb => ?_⟩
    rw [List.mem_singleton] at hb
    subst hb
    have hne := hfind a ha
    simp only [cacheKeyMatch, Bool.not_eq_true, Bool.and_eq_false_imp] at hne
    intro hkey
    rw [cacheKey, cacheKey] at hkey
    have h1 : a.normalized_name = n := (Prod.mk.injEq .. ▸ hkey).1
    have h2 : a.unit_normalized = u := (Prod.mk.injEq .. ▸ hkey).2
    rw [beq_iff_eq] at hne
    rcases Bool.eq_false_iff.mp (hne h1) with h3
    exact h3 (beq_iff_eq.mpr h2)
  | some _ =>
    dsimp only
    exact replaceFirst_pairwise
      (f := fun r => { r with
                       grams_per_unit := res.grams_per_unit,
                       source := res.source,
                       confidence_score := res.confidence_score,
                       category := res.category })
      (fun r => rfl) h

theorem resolve_cache_distinct (providers : List ProviderFn) (db : List CacheRow)
    (food_name unit : String) (preferred : Option ℚ) (h : DistinctCacheKeys db) :
    DistinctCacheKeys (resolvePortionGrams providers db food_name unit preferred).cache := by
  by_cases hname : pyLower (pyStrip food_name) = ""
  · have h1 : resolvePortionGrams providers db food_name unit preferred =
        ⟨tblGetD genericFallbackTable (normalizeUnit unit) 100, db, 0⟩ := by
      unfold resolvePortionGrams
      rw [if_pos hname]
    rw [h1]
    exact h
  · cases hcache :
        getCachedResolution db (pyLower (pyStrip food_name)) (normalizeUnit unit) with
    | some cached =>
      have h1 : resolvePortionGrams providers db food_name unit preferred =
          ⟨cached.grams_per_unit, db, 0⟩ := by
        unfold resolvePortionGrams
        rw [if_neg hname, hcache]
      rw [h1]
      exact h
    | none =>
      obtain ⟨res, calls, h1⟩ :=
        resolve_miss_shape providers db food_name unit preferred hname hcache
      rw [h1]
      exact upsertCache_distinct h

/-- C9: starting from a cache with at most one live row per
`(normalized name, normalized unit)` key, any sequence of sequential
portion resolutions leaves at most one live row per key: each resolution
either appends a row for a previously absent key or rewrites the existing
row's value fields in place, never duplicating a key. -/
theorem runResolutions_distinct (providers : List ProviderFn)
    (reqs : List ResolveReq) (db : List CacheRow) (h : DistinctCacheKeys db) :
    DistinctCacheKeys (runResolutions providers db reqs) := by
  induction reqs generalizing db with
  | nil => simpa [runResolutions] using h
  | cons r rs ih =>
    rw [runResolutions]
    exact ih _ (resolve_cache_distinct providers db r.food_name r.unit
      r.preferred_serving_grams h)

/-- C9 witness: two resolutions of the same food under two spellings of
the same unit, from the empty cache, leave a duplicate-free cache. -/
theorem runResolutions_distinct_witness :
    DistinctCacheKeys ([] : List CacheRow) ∧
    DistinctCacheKeys (runResolutions zeroGramProviderChain []
      [⟨"olive oil", "tablespoon", none⟩, ⟨"olive oil", "tbsp", none⟩,
       ⟨"rice", "cup", none⟩]) :=
  ⟨List.Pairwise.nil,
   runResolutions_distinct zeroGramProviderChain
     [⟨"olive oil", "tablespoon", none⟩, ⟨"olive oil", "tbsp", none⟩,
      ⟨"rice", "cup", none⟩] [] List.Pairwise.nil⟩

/-! ## Shared lemmas about the embedded aggregator -/

theorem mem_insertLe {α : Type} {le : α → α → Bool} {x a : α} :
    ∀ {l : List α}, a ∈ insertLe le x l ↔ a = x ∨ a ∈ l := by
  intro l
  induction l with
  | nil => simp [insertLe]
  | cons y ys ih =>
    unfold insertLe
    by_cases h : le x y
    · rw [if_pos h]
      simp [List.mem_cons]
    · rw [if_neg h]
      simp only [List.mem_cons, ih]
      tauto

theorem mem_pySorted {α : Type} {le : α → α → Bool} {a : α} :
    ∀ {l : List α}, a ∈ pySorted le l ↔ a ∈ l := by
  intro l
  induction l with
  | nil => simp [pySorted]
  | cons y ys ih =>
    show a ∈ insertLe le y (pySorted le ys) ↔ _
    rw [mem_insertLe]
    simp only [List.mem_cons, ih]

theorem dedupKeep_mem {tsr : String → String → ℚ} {x : FoodNormalized} :
    ∀ {l acc : List FoodNormalized}, x ∈ dedupKeep tsr acc l → x ∈ acc ∨ x ∈ l := by
  intro l
  induction l with
  | nil => intro acc h; rw [dedupKeep] at h; exact Or.inl h
  | cons c rest ih =>
    intro acc h
    rw [dedupKeep] at h
    by_cases hdup : acc.any (fun existing => isDuplicateFood tsr c existing)
    · rw [if_pos hdup] at h
      rcases ih h with h1 | h1
      · exact Or.inl h1
      · exact Or.inr (List.mem_cons_of_mem c h1)
    · rw [if_neg hdup] at h
      rcases ih h with h1 | h1
      · rcases List.mem_append.mp h1 with h2 | h2
        · exact Or.inl h2
        · rw [List.mem_singleton] at h2
          exact Or.inr (h2 ▸ List.mem_cons_self c rest)
      · exact Or.inr (List.mem_cons_of_mem c h1)

theorem clampConfidence_bounds (v : ℚ) :
    0 ≤ clampConfidence v ∧ clampConfidence v ≤ 1 := by
  unfold clampConfidence pyMax pyMin
  split_ifs with h1 h2 h3 <;> constructor <;> linarith

theorem mem_applyRankingRules {tsr : String → String → ℚ} {query : String}
    {exists_in_local_db : Bool} {items : List FoodNormalized}
    {runs : List ConnectorRun} {x : FoodNormalized}
    (hx : x ∈ applyRankingRules tsr query exists_in_local_db items runs) :
    ∃ y ∈ items, x = rescoreItem tsr query (isBarcodeText query)
      (queryHasBrand query) exists_in_local_db y := by
  unfold applyRankingRules at hx
  by_cases hempty : items.isEmpty
  · rw [if_pos hempty] at hx
    simp at hx
  · rw [if_neg hempty] at hx
    have hx1 := List.mem_of_mem_take hx
    have hx2 : x ∈ pySorted confDesc (removeDuplicates tsr (items.map
        (rescoreItem tsr query (isBarcodeText query) (queryHasBrand query)
          exists_in_local_db))) := by
      by_cases hb : (isBarcodeText query &&
          match resultsBySource runs "openfoodfacts" with
          | some l => !l.isEmpty
          | none => false) = true
      · rw [if_pos hb] at hx1
        exact mem_pySorted.mp hx1
      · rw [if_neg hb] at hx1
        exact hx1
    have hx3 := mem_pySorted.mp hx2
    rcases dedupKeep_mem hx3 with h | h
    · simp at h
    · have hx4 := mem_pySorted.mp h
      obtain ⟨y, hy, hxy⟩ := List.mem_map.mp hx4
      exact ⟨y, hy, hxy.symm⟩

/-- C3: every confidence score in the aggregator's output lies in
`[0, 1]`: the rescoring of each item applies its adjustment sequence and
then clamps once into `[0, 1]`, and deduplication, sorting and truncation
only select among the clamped items. Holds for any similarity scorer, any
query, any local-history state and any connector results (with input
confidence scores not even assumed bounded). -/
theorem searchFood_confidence_in_unit_interval
    (tsr : String → String → ℚ) (query : String) (exists_in_local_db : Bool)
    (runs : List ConnectorRun) (x : FoodNormalized)
    (hx : x ∈ searchFood tsr query exists_in_local_db runs) :
    0 ≤ x.confidence_score ∧ x.confidence_score ≤ 1 := by
  unfold searchFood at hx
  by_cases hq : pyStrip query = ""
  · rw [if_pos hq] at hx
    simp at hx
  · rw [if_neg hq] at hx
    obtain ⟨y, -, hxy⟩ := mem_applyRankingRules hx
    rw [hxy]
    exact clampConfidence_bounds _

/-- C3 witness: a barcode query over one USDA and one OpenFoodFacts hit;
the first ranked item's score is in the unit interval. -/
theorem searchFood_confidence_witness :
    0 ≤ (⟨"Tuna Can", some "Acme", 120, 25, 2, 0, some 0, "openfoodfacts",
          mkRat 95 100⟩ : FoodNormalized).confidence_score ∧
    (⟨"Tuna Can", some "Acme", 120, 25, 2, 0, some 0, "openfoodfacts",
      mkRat 95 100⟩ : FoodNormalized).confidence_score ≤ 1 :=
  searchFood_confidence_in_unit_interval (fun _ _ => 0) "7791234567890" false
    [⟨"usda", [⟨"Tuna, canned", none, 116, 26, 1, 0, none, "usda", mkRat 9 10⟩]⟩,
     ⟨"openfoodfacts", [⟨"Tuna Can", some "Acme", 120, 25, 2, 0, some 0,
        "openfoodfacts", mkRat 85 100⟩]⟩]
    ⟨"Tuna Can", some "Acme", 120, 25, 2, 0, some 0, "openfoodfacts", mkRat 95 100⟩
    (by decide)

theorem insertLe_perm {α : Type} (le : α → α → Bool) (x : α) :
    ∀ l : List α, List.Perm (insertLe le x l) (x :: l) := by
  intro l
  induction l with
  | nil => exact List.Perm.refl _
  | cons y ys ih =>
    unfold insertLe
    by_cases h : le x y
    · rw [if_pos h]
    · rw [if_neg h]
      exact (List.Perm.cons y ih).trans (List.Perm.swap x y ys)

theorem pySorted_perm {α : Type} (le : α → α → Bool) :
    ∀ l : List α, List.Perm (pySorted le l) l := by
  intro l
  induction l with
  | nil => exact List.Perm.refl _
  | cons y ys ih =>
    show List.Perm (insertLe le y (pySorted le ys)) (y :: ys)
    exact (insertLe_perm le y _).trans (List.Perm.cons y ih)

theorem insertLe_sorted {α : Type} {le : α → α → Bool}
    (htot : ∀ a b, le a b = true ∨ le b a = true)
    (htrans : ∀ a b c, le a b = true → le b c = true → le a c = true)
    (x : α) : ∀ {l : List α}, List.Pairwise (fun a b => le a b = true) l →
      List.Pairwise (fun a b => le a b = true) (insertLe le x l) := by
  intro l
  induction l with
  | nil => intro _; simp [insertLe]
  | cons y ys ih =>
    intro h
    rw [List.pairwise_cons] at h
    unfold insertLe
    by_cases hxy : le x y = true
    · rw [if_pos hxy, List.pairwise_cons]
      refine ⟨?_, List.pairwise_cons.mpr h⟩
      intro z hz
      rcases List.mem_cons.mp hz with rfl | hz'
      · exact hxy
      · exact htrans x y z hxy (h.1 z hz')
    · rw [if_neg hxy, List.pairwise_cons]
      refine ⟨?_, ih h.2⟩
      intro z hz
      rcases mem_insertLe.mp hz with hzx | hz'
      · rw [hzx]
        rcases htot x y with h1 | h1
        · exact absurd h1 hxy
        · exact h1
      · exact h.1 z hz'

theorem pySorted_sorted {α : Type} {le : α → α → Bool}
    (htot : ∀ a b, le a b = true ∨ le b a = true)
    (htrans : ∀ a b c, le a b = true → le b c = true → le a c = true) :
    ∀ l : List α, List.Pairwise (fun a b => le a b = true) (pySorted le l) := by
  intro l
  induction l with
  | nil => simp [pySorted]
  | cons y ys ih =>
    show List.Pairwise _ (insertLe le y (pySorted le ys))
    exact insertLe_sorted htot htrans y ih

theorem confDesc_total : ∀ a b : FoodNormalized,
    confDesc a b = true ∨ confDesc b a = true := by
  intro a b
  unfold confDesc
  rcases le_total b.confidence_score a.confidence_score with h | h
  · exact Or.inl (decide_eq_true h)
  · exact Or.inr (decide_eq_true h)

theorem confDesc_trans : ∀ a b c : FoodNormalized,
    confDesc a b = true → confDesc b c = true → confDesc a c = true := by
  intro a b c h1 h2
  unfold confDesc at h1 h2 ⊢
  exact decide_eq_true (le_trans (of_decide_eq_true h2) (of_decide_eq_true h1))

theorem dedupKeep_pairwise {tsr : String → String → ℚ} :
    ∀ {l acc : List FoodNormalized},
      List.Pairwise (fun a b => isDuplicateFood tsr b a = false) acc →
      List.Pairwise (fun a b => isDuplicateFood tsr b a = false) (dedupKeep tsr acc l) := by
  intro l
  induction l with
  | nil => intro acc h; rw [dedupKeep]; exact h
  | cons c rest ih =>
    intro acc h
    rw [dedupKeep]
    by_cases hdup : acc.any (fun existing => isDuplicateFood tsr c existing)
    · rw [if_pos hdup]
      exact ih h
    · rw [if_neg hdup]
      apply ih
      rw [List.pairwise_append]
      refine ⟨h, List.pairwise_singleton _ _, ?_⟩
      intro a ha b hb
      rw [List.mem_singleton] at hb
      subst hb
      have hfalse : acc.any (fun existing => isDuplicateFood tsr b existing) = false := by
        simpa using hdup
      have h2 := List.any_eq_false.mp hfalse a ha
      simpa using h2

theorem dedupKeep_acc_subset {tsr : String → String → ℚ} {e : FoodNormalized} :
    ∀ {l acc : List FoodNormalized}, e ∈ acc → e ∈ dedupKeep tsr acc l := by
  intro l
  induction l with
  | nil => intro acc h; rw [dedupKeep]; exact h
  | cons c rest ih =>
    intro acc h
    rw [dedupKeep]
    by_cases hdup : acc.any (fun existing => isDuplicateFood tsr c existing)
    · rw [if_pos hdup]
      exact ih h
    · rw [if_neg hdup]
      exact ih (List.mem_append_left _ h)

theorem dedupKeep_dominates {tsr : String → String → ℚ} :
    ∀ {l acc : List FoodNormalized},
      (∀ e ∈ acc, ∀ z ∈ l, z.confidence_score ≤ e.confidence_score) →
      List.Pairwise (fun a b => confDesc a b = true) l →
      ∀ x ∈ l, x ∈ dedupKeep tsr acc l ∨
        ∃ y ∈ dedupKeep tsr acc l,
          isDuplicateFood tsr x y = true ∧
          x.confidence_score ≤ y.confidence_score := by
  intro l
  induction l with
  | nil => intro acc _ _ x hx; simp at hx
  | cons c rest ih =>
    intro acc hacc hsorted x hx
    rw [List.pairwise_cons] at hsorted
    rw [dedupKeep]
    by_cases hdup : acc.any (fun existing => isDuplicateFood tsr c existing)
    · rw [if_pos hdup]
      rcases List.mem_cons.mp hx with hxc | hx'
      · obtain ⟨e, he, hde⟩ := List.any_eq_true.mp hdup
        right
        refine ⟨e, dedupKeep_acc_subset he, ?_, ?_⟩
        · rw [hxc]; exact hde
        · rw [hxc]; exact hacc e he c (List.mem_cons_self c rest)
      · exact ih (fun e he z hz => hacc e he z (List.mem_cons_of_mem c hz))
          hsorted.2 x hx'
    · rw [if_neg hdup]
      rcases List.mem_cons.mp hx with hxc | hx'
      · left
        apply dedupKeep_acc_subset
        rw [hxc]
        exact List.mem_append_right _ (List.mem_singleton.mpr rfl)
      · refine ih ?_ hsorted.2 x hx'
        intro e he z hz
        rcases List.mem_append.mp he with he' | he'
        · exact hacc e he' z (List.mem_cons_of_mem c hz)
        · rw [List.mem_singleton] at he'
          rw [he']
          exact of_decide_eq_true (hsorted.1 z hz)

theorem removeDuplicates_pairwise (tsr : String → String → ℚ)
    (hsym : ∀ s t, tsr s t = tsr t s) (items : List FoodNormalized) :
    List.Pairwise (fun a b => tsr (foodKey a) (foodKey b) < 92)
      (removeDuplicates tsr items) := by
  have h0 := @dedupKeep_pairwise tsr (pySorted confDesc items) []
    List.Pairwise.nil
  refine h0.imp ?_
  intro a b h
  have h1 : ¬ (92 ≤ tsr (foodKey b) (foodKey a)) := of_decide_eq_false h
  rw [hsym]
  exact not_le.mp h1

/-- C4: the ranked list returned by the aggregator's `search_food`
contains at most `MAX_RESULTS = 5` items and no two of them have a fuzzy
`(name + brand)` similarity of 92 or more (assuming the scorer is
symmetric, as `token_set_ratio` is); and in the deduplication stage,
every discarded item is dominated by a surviving item that duplicates it
and has an equal or higher confidence score. -/
theorem searchFood_top5_dedup
    (tsr : String → String → ℚ) (query : String) (exists_in_local_db : Bool)
    (runs : List ConnectorRun)
    (hsym : ∀ s t, tsr s t = tsr t s) :
    (searchFood tsr query exists_in_local_db runs).length ≤ 5 ∧
    List.Pairwise (fun a b => tsr (foodKey a) (foodKey b) < 92)
      (searchFood tsr query exists_in_local_db runs) ∧
    (∀ l : List FoodNormalized, ∀ x ∈ l,
      x ∈ removeDuplicates tsr l ∨
      ∃ y ∈ removeDuplicates tsr l,
        isDuplicateFood tsr x y = true ∧
        x.confidence_score ≤ y.confidence_score) := by
  have hR_sym : ∀ {a b : FoodNormalized},
      tsr (foodKey a) (foodKey b) < 92 → tsr (foodKey b) (foodKey a) < 92 := by
    intro a b h
    rw [hsym]
    exact h
  refine ⟨?_, ?_, ?_⟩
  · unfold searchFood
    by_cases hq : pyStrip query = ""
    · rw [if_pos hq]
      simp
    · rw [if_neg hq]
      unfold applyRankingRules
      by_cases he : ((runs.foldl (fun acc r => acc ++ r.items) []).isEmpty : Bool) = true
      · rw [if_pos he]
        simp
    
      · rw [if_neg he]
        exact List.length_take_le MAX_RESULTS _
  · unfold searchFood
    by_cases hq : pyStrip query = ""
    · rw [if_pos hq]
      exact List.Pairwise.nil
    · rw [if_neg hq]
      unfold applyRankingRules
      by_cases he : ((runs.foldl (fun acc r => acc ++ r.items) []).isEmpty : Bool) = true
      · rw [if_pos he]
        exact List.Pairwise.nil
      · rw [if_neg he]
        apply List.Pairwise.sublist (List.take_sublist _ _)
        have hdedup := removeDuplicates_pairwise tsr hsym
          ((runs.foldl (fun acc r => acc ++ r.items) []).map
            (rescoreItem tsr (pyStrip query) (isBarcodeText (pyStrip query))
              (queryHasBrand (pyStrip query)) exists_in_local_db))
        have hsort1 :=
          (List.Perm.pairwise_iff hR_sym (pySorted_perm confDesc _)).mpr hdedup
        by_cases hb : (isBarcodeText (pyStrip query) &&
            match resultsBySource runs "openfoodfacts" with
            | some l => !l.isEmpty
            | none => false) = true
        · rw [if_pos hb]
          exact (List.Perm.pairwise_iff hR_sym (pySorted_perm barcodeKeyLe _)).mpr hsort1
        · rw [if_neg hb]
          exact hsort1
  · intro l x hx
    unfold removeDuplicates
    exact dedupKeep_dominates (by simp)
      (pySorted_sorted confDesc_total confDesc_trans l) x (mem_pySorted.mpr hx)

/-- C4 witness: a symmetric scorer marking equal keys as similarity 100,
two same-key tuna records and one salmon record; the output is capped and
duplicate-free, and the lower-confidence tuna is dominated by the
higher-confidence one in the deduplication stage. -/
theorem searchFood_top5_dedup_witness :
    (searchFood (fun s t => if s = t then 100 else 0) "fish" false
        [⟨"usda", [⟨"Tuna", none, 116, 26, 1, 0, none, "usda", mkRat 9 10⟩,
                   ⟨"Tuna", none, 110, 24, 1, 0, none, "usda", mkRat 8 10⟩]⟩,
         ⟨"openfoodfacts", [⟨"Salmon", none, 200, 20, 13, 0, some 0,
            "openfoodfacts", mkRat 85 100⟩]⟩]).length ≤ 5 ∧
    List.Pairwise (fun a b => (fun s t : String => if s = t then (100 : ℚ) else 0)
        (foodKey a) (foodKey b) < 92)
      (searchFood (fun s t => if s = t then 100 else 0) "fish" false
        [⟨"usda", [⟨"Tuna", none, 116, 26, 1, 0, none, "usda", mkRat 9 10⟩,
                   ⟨"Tuna", none, 110, 24, 1, 0, none, "usda", mkRat 8 10⟩]⟩,
         ⟨"openfoodfacts", [⟨"Salmon", none, 200, 20, 13, 0, some 0,
            "openfoodfacts", mkRat 85 100⟩]⟩]) ∧
    ((⟨"Tuna", none, 110, 24, 1, 0, none, "usda", mkRat 8 10⟩ : FoodNormalized) ∈
        removeDuplicates (fun s t => if s = t then 100 else 0)
          [⟨"Tuna", none, 116, 26, 1, 0, none, "usda", mkRat 9 10⟩,
           ⟨"Tuna", none, 110, 24, 1, 0, none, "usda", mkRat 8 10⟩] ∨
      ∃ y ∈ removeDuplicates (fun s t => if s = t then 100 else 0)
          [⟨"Tuna", none, 116, 26, 1, 0, none, "usda", mkRat 9 10⟩,
           ⟨"Tuna", none, 110, 24, 1, 0, none, "usda", mkRat 8 10⟩],
        isDuplicateFood (fun s t => if s = t then 100 else 0)
          ⟨"Tuna", none, 110, 24, 1, 0, none, "usda", mkRat 8 10⟩ y = true ∧
        (⟨"Tuna", none, 110, 24, 1, 0, none, "usda", mkRat 8 10⟩ :
          FoodNormalized).confidence_score ≤ y.confidence_score) := by
  have hsym : ∀ s t : String,
      (if s = t then (100 : ℚ) else 0) = (if t = s then 100 else 0) := by
    intro s t
    by_cases h : s = t
    · rw [h]
    · rw [if_neg h, if_neg (fun hh => h hh.symm)]
  have T := searchFood_top5_dedup (fun s t => if s = t then 100 else 0) "fish" false
    [⟨"usda", [⟨"Tuna", none, 116, 26, 1, 0, none, "usda", mkRat 9 10⟩,
               ⟨"Tuna", none, 110, 24, 1, 0, none, "usda", mkRat 8 10⟩]⟩,
     ⟨"openfoodfacts", [⟨"Salmon", none, 200, 20, 13, 0, some 0,
        "openfoodfacts", mkRat 85 100⟩]⟩] hsym
  exact ⟨T.1, T.2.1,
    T.2.2 [⟨"Tuna", none, 116, 26, 1, 0, none, "usda", mkRat 9 10⟩,
           ⟨"Tuna", none, 110, 24, 1, 0, none, "usda", mkRat 8 10⟩]
      ⟨"Tuna", none, 110, 24, 1, 0, none, "usda", mkRat 8 10⟩ (by decide)⟩

/-- C5 (amended): for every quantity and recognized weight unit,
`convert_to_grams` returns the fixed multiplier conversion rounded to two
decimal places, with no external lookup (it is a pure table computation):
`round(quantity * multiplier, 2)`. For example 2 kg yields exactly 2000 g
and 1 lb yields 453.59 g. -/
theorem convertToGrams_weight_unit
    (quantity : ℚ) (unit : String) (food_name : Option String) (m : ℚ)
    (h : tblGet UNIT_TO_GRAMS (fpNormalizeUnit unit) = some m) :
    convertToGrams quantity unit food_name = .ok (pyRound2 (quantity * m)) := by
  unfold convertToGrams
  dsimp only
  rw [h]

/-- C5 witness: 2 kg converts through the weight table to exactly 2000 g. -/
theorem convertToGrams_weight_unit_witness :
    tblGet UNIT_TO_GRAMS (fpNormalizeUnit "kg") = some 1000 ∧
    convertToGrams 2 "kg" none = .ok (pyRound2 (2 * 1000)) ∧
    convertToGrams 2 "kg" none = .ok 2000 :=
  ⟨by decide, convertToGrams_weight_unit 2 "kg" none 1000 (by decide), by decide⟩

/-- C5 counterexample: `convert_to_grams(1, "lb")` returns 453.59, because
the result is rounded to two decimal places (`food_parser.py` line 172);
the claimed exact value 453.592 is not returned. -/
theorem convertToGrams_lb_not_exact :
    convertToGrams 1 "lb" none = .ok (mkRat 45359 100) ∧
    (mkRat 45359 100 : ℚ) ≠ mkRat 453592 1000 :=
  ⟨by decide, by decide⟩

/-- C8 (amended): the extraction fails with `insufficient_data` exactly
for empty or whitespace-only input; the three-character minimum is
enforced only by the HTTP request schema (`FoodParseRequest`,
`min_length=3`) as a generic validation failure. A shorter non-blank text
reaching `parse_food_input` is forwarded to the collaborator. -/
theorem parseFoodInput_blank_and_schema :
    (∀ (text : String) (ai : Except String JsonVal), pyStrip text = "" →
       parseFoodInput text ai = .error "insufficient_data") ∧
    (∀ text : String, text.length < 3 → foodParseRequestValid text = false) := by
  constructor
  · intro text ai h
    unfold parseFoodInput
    rw [if_pos (Or.inr h)]
  · intro text h
    unfold foodParseRequestValid
    rw [decide_eq_false (by omega : ¬ (3 ≤ text.length))]
    rfl

/-- C8 witness: whitespace-only text fails as `insufficient_data`, and a
two-character text is rejected by the request schema. -/
theorem parseFoodInput_blank_and_schema_witness :
    parseFoodInput "   " (.ok .null) = .error "insufficient_data" ∧
    foodParseRequestValid "ab" = false :=
  ⟨parseFoodInput_blank_and_schema.1 "   " (.ok .null) (by decide),
   parseFoodInput_blank_and_schema.2 "ab" (by decide)⟩

/-- C8 counterexample: the two-character text `"ab"` is not rejected by
`parse_food_input`: it is forwarded to the collaborator, and with a valid
single-item response the call succeeds instead of failing with
`insufficient_data`. -/
theorem parseFoodInput_short_text_counterexample :
    "ab".length < 3 ∧
    parseFoodInput "ab" (.ok (singleItemJson "egg" 1 "serving")) =
      .ok [⟨"egg", 1, "serving"⟩] :=
  ⟨by decide, by decide⟩

/-- C10: in the meal assembler, an item in a serving unit whose matched
provider record carries no serving size in grams is massed at the fixed
default of 100 grams per serving: `quantity_grams = round(quantity * 100, 2)`
(`FoodService.DEFAULT_SERVING_GRAMS`). -/
theorem resolveItemNutrition_default_serving
    (cached_entry : Option CachedFoodEntry) (m : USDAFoodResult)
    (quantity : ℚ) (unit : String)
    (hq : 0 < quantity)
    (hserv : isServingUnit (pyLower (pyStrip unit)) = true)
    (hnone : m.serving_size_grams = none)
    (hpos : 0 < pyRound2 (quantity * 100)) :
    ∃ r, resolveItemNutrition cached_entry (.ok m) quantity unit = .ok r ∧
      r.quantity_grams = pyRound2 (quantity * 100) := by
  unfold resolveItemNutrition
  rw [if_neg (not_le.mpr hq)]
  dsimp only
  rw [hserv]
  cases cached_entry with
  | none =>
    simp only [Option.some_bind, hnone, Option.getD_none, if_true, DEFAULT_SERVING_GRAMS]
    rw [if_neg (not_le.mpr hpos)]
    exact ⟨_, rfl, rfl⟩
  | some ce =>
    simp only [Option.some_bind, hnone, Option.getD_none, if_true, DEFAULT_SERVING_GRAMS]
    rw [if_neg (not_le.mpr hpos)]
    exact ⟨_, rfl, rfl⟩

/-- C10 witness: one and a half servings with a serving-sized unit and a
match that reports no serving size resolves to 150 g. -/
theorem resolveItemNutrition_default_serving_witness :
    (0 : ℚ) < mkRat 3 2 ∧
    isServingUnit (pyLower (pyStrip "Serving")) = true ∧
    (⟨"171287", 50, 10, 5, 2, none⟩ : USDAFoodResult).serving_size_grams = none ∧
    (0 : ℚ) < pyRound2 (mkRat 3 2 * 100) ∧
    (∃ r, resolveItemNutrition none (.ok ⟨"171287", 50, 10, 5, 2, none⟩)
        (mkRat 3 2) "Serving" = .ok r ∧
      r.quantity_grams = pyRound2 (mkRat 3 2 * 100)) :=
  ⟨by decide, by decide, by decide, by decide,
   resolveItemNutrition_default_serving none ⟨"171287", 50, 10, 5, 2, none⟩
     (mkRat 3 2) "Serving" (by decide) (by decide) (by decide) (by decide)⟩

/-- C7 (code evaluation at the failing input): the USDA connector returns
the empty list on missing credentials, timeout, transport/status errors
and structurally malformed JSON — but a 2xx response whose body is not
decodable JSON raises `json.JSONDecodeError` to the caller, because
`response.json()` (line 53) runs outside the `try` block of
`USDAConnector.search`. -/
theorem usdaConnectorSearch_failure_behavior :
    usdaConnectorSearch "" (.success (some (.obj []))) = .ok [] ∧
    usdaConnectorSearch "key" .timeout = .ok [] ∧
    usdaConnectorSearch "key" .httpError = .ok [] ∧
    usdaConnectorSearch "key" (.success (some (.str "not json object"))) = .ok [] ∧
    usdaConnectorSearch "key" (.success (some (.obj [("foods", .str "bad")]))) = .ok [] ∧
    usdaConnectorSearch "key" (.success none) = .error "json.JSONDecodeError" :=
  ⟨by decide, by decide, by decide, by decide, by decide, by decide⟩

/-- C6 counterexample to the original claim: the text and the single
composite item `"cafe con leche y pan"` (no digits, unit `"cup"` — not a
serving unit, so `_expand_composite_item` takes the connector-split
branch) match the coffee-with-milk pattern, yet `parse_food_input`
returns three items — the third component of the composite survives
after the forced pair — so the output is not exactly the two half-cup
items. -/
theorem parseFoodInput_coffee_milk_three_items :
    parseFoodInput "cafe con leche y pan"
        (.ok (singleItemJson "cafe con leche y pan" 1 "cup")) =
      .ok [⟨"coffee", mkRat 1 2, "cup"⟩, ⟨"milk", mkRat 1 2, "cup"⟩,
           ⟨"pan", mkRat 3333 10000, "cup"⟩] ∧
    parseFoodInput "cafe con leche y pan"
        (.ok (singleItemJson "cafe con leche y pan" 1 "cup")) ≠
      .ok coffeeMilkPair :=
  ⟨by decide, by decide⟩

theorem validatePayload_single (name unit : String) (quantity : ℚ)
    (hnlen1 : 1 ≤ name.length) (hnlen2 : name.length ≤ 200)
    (hq : 0 < quantity)
    (hulen1 : 1 ≤ unit.length) (hulen2 : unit.length ≤ 20) :
    validatePayload (singleItemJson name quantity unit) =
      some ⟨name, quantity, unit⟩ := by
  simp only [validatePayload, singleItemJson, jGet, List.find?, List.all,
    show ("name" == "quantity") = false from rfl,
    show ("name" == "unit") = false from rfl,
    show ("quantity" == "unit") = false from rfl,
    show ("name" == "name") = true from rfl,
    show ("quantity" == "quantity") = true from rfl,
    show ("unit" == "unit") = true from rfl,
    show ("quantity" == "name") = false from rfl,
    show ("unit" == "name") = false from rfl,
    show ("unit" == "quantity") = false from rfl,
    Option.map_some']
  exact if_pos (⟨hnlen1, hnlen2, hq, hulen1, hulen2⟩ :
    1 ≤ name.length ∧ name.length ≤ 200 ∧ 0 < quantity ∧
    1 ≤ unit.length ∧ unit.length ≤ 20)

theorem expandCompositeItem_coffee_milk (name unit : String) (quantity : ℚ)
    (hname : coffeeMilkSearch (pyStrip name) = true)
    (hunit : isServingUnit unit = true) :
    expandCompositeItem ⟨name, quantity, unit⟩ =
      [⟨"coffee", pyRound4 (quantity * mkRat 5 10), "cup"⟩,
       ⟨"milk", pyRound4 (quantity * mkRat 5 10), "cup"⟩] := by
  have hne : ¬ (pyStrip name = "") := by
    intro h
    rw [h] at hname
    exact absurd hname (by decide)
  unfold expandCompositeItem
  rw [if_neg hne, if_pos (by simp [hname, hunit])]

/-- C6 (amended): for every digit-free input text matching the
coffee-with-milk pattern, when the extractor produced a single composite
item whose name matches the pattern and whose unit is a serving unit in
the sense of `is_serving_unit` — exactly `"serving"`, `"portion"`,
`"porción"` or `"porcion"` after strip/lower, so not `"cup"` —
`parse_food_input` returns exactly the two items `coffee` and `milk`,
each quantity 0.5, unit `"cup"`, regardless of the quantity and of which
serving unit the collaborator returned. (For a non-serving unit such as
`"cup"`, `_expand_composite_item` instead splits the name on connector
tokens; a composite naming components beyond coffee and milk then keeps
those extra components after the forced pair — see the counterexample.) -/
theorem parseFoodInput_coffee_milk_split
    (text name unit : String) (quantity : ℚ)
    (htext : coffeeMilkSearch text = true)
    (hnum : hasExplicitQuantity text = false)
    (htne : pyStrip text ≠ "")
    (hname : coffeeMilkSearch (pyStrip name) = true)
    (hunit : isServingUnit unit = true)
    (hnlen1 : 1 ≤ name.length) (hnlen2 : name.length ≤ 200)
    (hq : 0 < quantity)
    (hulen1 : 1 ≤ unit.length) (hulen2 : unit.length ≤ 20) :
    parseFoodInput text (.ok (singleItemJson name quantity unit)) =
      .ok coffeeMilkPair := by
  have htxt0 : ¬ (text = "" ∨ pyStrip text = "") := by
    rintro (h | h)
    · subst h
      exact htne rfl
    · exact htne h
  have hmark : errorMarkerOf (singleItemJson name quantity unit) = none := rfl
  have hcollect : collectFoodItemCandidates (singleItemJson name quantity unit) =
      [singleItemJson name quantity unit] := rfl
  have hvalid := validatePayload_single name unit quantity hnlen1 hnlen2 hq hulen1 hulen2
  have hexp := expandCompositeItem_coffee_milk name unit quantity hname hunit
  unfold parseFoodInput
  rw [if_neg htxt0]
  simp only [hmark, hcollect, hvalid, hexp, htext, hnum,
    List.isEmpty_cons, List.filterMap_cons, List.filterMap_nil,
    List.flatMap_cons, List.flatMap_nil, List.append_nil,
    Bool.not_false, Bool.and_true, Bool.true_and, if_true, if_false,
    List.filter, List.any,
    show containsCoffeeOrMilk "coffee" = true from rfl,
    show containsCoffeeOrMilk "milk" = true from rfl,
    Bool.false_eq_true, Bool.not_true, Bool.or_true, Bool.true_or]

/-- C6 witness: `"cafe con leche"` with a collaborator item
`{"coffee with milk", 2, "serving"}` — a drifted quantity of two whole
servings — yields exactly the half-cup coffee and milk pair. -/
theorem parseFoodInput_coffee_milk_split_witness :
    coffeeMilkSearch "cafe con leche" = true ∧
    hasExplicitQuantity "cafe con leche" = false ∧
    isServingUnit "serving" = true ∧
    parseFoodInput "cafe con leche"
        (.ok (singleItemJson "coffee with milk" 2 "serving")) = .ok coffeeMilkPair :=
  ⟨by decide, by decide, by decide,
   parseFoodInput_coffee_milk_split "cafe con leche" "coffee with milk" "serving" 2
     (by decide) (by decide) (by decide) (by decide) (by decide)
     (by decide) (by decide) (by decide) (by decide) (by decide)⟩

/-! ## The resolver's exception channel -/

theorem runProvidersTry_lift (providers : List ProviderFn) (n u : String) :
    runProvidersTry (providers.map liftProvider) n u =
      .ok (runProviders providers n u) := by
  induction providers with
  | nil => rfl
  | cons p ps ih =>
    simp only [List.map_cons, runProvidersTry, liftProvider, runProviders]
    cases p n u with
    | some r => rfl
    | none => rw [ih]

theorem resolveViaProvidersTry_lift (providers : List ProviderFn)
    (db : List CacheRow) (n u : String) :
    resolveViaProvidersTry (providers.map liftProvider) db n u =
      .ok (resolveViaProviders providers db n u) := by
  unfold resolveViaProvidersTry resolveViaProviders
  rw [runProvidersTry_lift]
  cases hrun : runProviders providers n u with
  | mk o k => cases o <;> rfl

/-- The exception-aware resolver is a conservative extension: over
providers that never raise, it returns `.ok` of exactly what the
exception-free embedding computes. -/
theorem resolvePortionGramsTry_lift (providers : List ProviderFn)
    (db : List CacheRow) (food_name unit : String) (preferred : Option ℚ) :
    resolvePortionGramsTry (providers.map liftProvider) db food_name unit preferred =
      .ok (resolvePortionGrams providers db food_name unit preferred) := by
  unfold resolvePortionGramsTry resolvePortionGrams
  by_cases hname : pyLower (pyStrip food_name) = ""
  · rw [if_pos hname, if_pos hname]
  · rw [if_neg hname, if_neg hname]
    cases getCachedResolution db (pyLower (pyStrip food_name)) (normalizeUnit unit) with
    | some cached => rfl
    | none =>
      dsimp only
      cases preferred with
      | none => exact resolveViaProvidersTry_lift providers db _ _
      | some p =>
        dsimp only
        by_cases hcond : normalizeUnit unit = "serving" ∧ p ≠ 0 ∧ 0 < p
        · rw [if_pos hcond, if_pos hcond]
        · rw [if_neg hcond, if_neg hcond]
          exact resolveViaProvidersTry_lift providers db _ _

/-- C1: on a model of the provider helpers that keeps their HTTP step,
the claimed failure contract is broken. With USDA and FatSecret
unconfigured and Open Food Facts answering HTTP 200 with a body that is
not valid JSON, `resolve_portion_grams("apple", "cup")` propagates
`json.JSONDecodeError` to its caller instead of degrading to a heuristic
(first conjunct); the same call under a caught transport or status error
does return normally (second conjunct) with the positive category
fallback (third conjunct) — so the contract fails precisely at the
`response.json()` call outside the `try`. -/
theorem resolvePortionGrams_error_propagation :
    resolvePortionGramsTry
        [liftProvider providerWithoutCredentials,
         liftProvider providerWithoutCredentials,
         offProviderWithHttp (fun _ _ => 0) (.success none) (fun _ => [])]
        [] "apple" "cup" none = .error "json.JSONDecodeError" ∧
    (resolvePortionGramsTry
        [liftProvider providerWithoutCredentials,
         liftProvider providerWithoutCredentials,
         offProviderWithHttp (fun _ _ => 0) .httpError (fun _ => [])]
        [] "apple" "cup" none).isOk = true ∧
    0 < (((resolvePortionGramsTry
        [liftProvider providerWithoutCredentials,
         liftProvider providerWithoutCredentials,
         offProviderWithHttp (fun _ _ => 0) .httpError (fun _ => [])]
        [] "apple" "cup" none).toOption).map ResolveOut.grams).getD 0 :=
  ⟨by decide, by decide, by decide⟩
